import Mathlib

/-!
Verification development for the hardcoresnake multiplayer game core.

The definitions below are a shallow embedding of the C++ sources
(src/hardcoresnake.cpp, src/game.cpp, src/multiplayer.cpp together with
include/hardcoresnake.h, include/multiplayer.h, include/game.h,
include/config.h).  C++ machine integers are modelled as Int or Nat
(Uint32 wrap-around is made explicit where it can matter), std::deque
and the fixed-size player array are modelled as Lists (the player array
always has exactly MAX_PLAYERS = 4 entries in any reachable context; the
loops over indices 0..3 become structural recursion over the list),
the jansson JSON payloads are modelled as records of Option fields (a
field is none exactly when the corresponding json_object_get yields a
value of the wrong kind or no value), and rand() is modelled as an
oracle stream rng : Nat -> Nat (call k returns rng k).  SDL rendering,
logging and the transport library are out of scope: sends are no-ops
here, SDL_GetTicks() is an explicit parameter now.
-/

-- ==================== Grid constants (config.h / hardcoresnake.h) ====================

/-- GRID_WIDTH = WINDOW_WIDTH / GRID_SIZE = 800 / 20 (hardcoresnake.h). -/
def GRID_WIDTH : Int := 40

/-- GRID_HEIGHT = WINDOW_HEIGHT / GRID_SIZE = 600 / 20 (hardcoresnake.h). -/
def GRID_HEIGHT : Int := 30

/-- Config::Game::MAX_FOOD_SPAWN_ATTEMPTS. -/
def MAX_FOOD_SPAWN_ATTEMPTS : Nat := 1000

/-- Config::Game::MAX_PLAYERS. -/
def MAX_PLAYERS : Nat := 4

-- ==================== Position and Direction (hardcoresnake.h) ====================

/-- Position: integer grid coordinate, equality by value. -/
structure Position where
  x : Int
  y : Int
deriving DecidableEq, Repr

/-- Direction enum from hardcoresnake.h. -/
inductive Direction where
  | UP
  | DOWN
  | LEFT
  | RIGHT
  | NONE
deriving DecidableEq, Repr

/-- The encoded cell key, y * GRID_WIDTH + x, used by every occupancy map. -/
def cellKey (p : Position) : Int := p.y * GRID_WIDTH + p.x

/-- An occupancy map: std::unordered_map key presence, count(key) != 0 iff true. -/
def OccMap : Type := Int → Bool

-- ==================== Snake (hardcoresnake.h / hardcoresnake.cpp) ====================

/-- Snake state.  The SDL_Color field of the C++ class is presentation-only
and is omitted; body front = List head. -/
structure Snake where
  body : List Position
  direction : Direction
  nextDirection : Direction
  alive : Bool
  score : Int
deriving DecidableEq, Repr

/-- Snake::Snake(color, startPos): three segments extending left of startPos,
directions NONE, alive, score 0. -/
def Snake.create (startPos : Position) : Snake :=
  { body := [startPos, ⟨startPos.x - 1, startPos.y⟩, ⟨startPos.x - 2, startPos.y⟩]
    direction := Direction.NONE
    nextDirection := Direction.NONE
    alive := true
    score := 0 }

/-- Snake::setDirection (hardcoresnake.cpp lines 64-95).  When not yet moving
and the body has at least two segments, the body is reversed when the chosen
direction opposes the current visual heading; otherwise a direction that is
the exact reverse of the current one is ignored. -/
def Snake.setDirection (s : Snake) (dir : Direction) : Snake :=
  match s.body with
  | h :: n :: rest =>
    if s.direction = Direction.NONE then
      let facingRight := h.x > n.x
      let facingLeft := h.x < n.x
      let facingDown := h.y > n.y
      let facingUp := h.y < n.y
      let doReverse :=
        ((dir = Direction.LEFT ∧ facingRight) ∨ (dir = Direction.RIGHT ∧ facingLeft)) ∨
        ((dir = Direction.UP ∧ facingDown) ∨ (dir = Direction.DOWN ∧ facingUp))
      let body1 := if doReverse then (h :: n :: rest).reverse else h :: n :: rest
      { s with body := body1, nextDirection := dir }
    else
      if (dir = Direction.UP ∧ s.direction ≠ Direction.DOWN) ∨
         (dir = Direction.DOWN ∧ s.direction ≠ Direction.UP) ∨
         (dir = Direction.LEFT ∧ s.direction ≠ Direction.RIGHT) ∨
         (dir = Direction.RIGHT ∧ s.direction ≠ Direction.LEFT) then
        { s with nextDirection := dir }
      else s
  | _ =>
    -- body.size() < 2: the first branch of the C++ code is not taken even
    -- when direction == NONE, and the reverse-check branch runs.
    if (dir = Direction.UP ∧ s.direction ≠ Direction.DOWN) ∨
       (dir = Direction.DOWN ∧ s.direction ≠ Direction.UP) ∨
       (dir = Direction.LEFT ∧ s.direction ≠ Direction.RIGHT) ∨
       (dir = Direction.RIGHT ∧ s.direction ≠ Direction.LEFT) then
      { s with nextDirection := dir }
    else s

/-- One-cell displacement of a head position in a direction (Snake::update switch). -/
def movePos (p : Position) (d : Direction) : Position :=
  match d with
  | Direction.UP => ⟨p.x, p.y - 1⟩
  | Direction.DOWN => ⟨p.x, p.y + 1⟩
  | Direction.LEFT => ⟨p.x - 1, p.y⟩
  | Direction.RIGHT => ⟨p.x + 1, p.y⟩
  | Direction.NONE => p

/-- Snake::update (hardcoresnake.cpp lines 97-118): commit pending direction,
idle when NONE, otherwise push new head to the front and pop the tail.
(On an empty body the C++ body.front() is undefined behaviour; modelled as a
no-op and excluded by hypotheses where relevant.) -/
def Snake.update (s : Snake) : Snake :=
  if s.alive = false then s
  else
    let s1 := { s with direction := s.nextDirection }
    if s1.direction = Direction.NONE then s1
    else
      match s1.body with
      | [] => s1
      | h :: t =>
        let newHead := movePos h s1.direction
        { s1 with body := (newHead :: h :: t).dropLast }

/-- Snake::grow (hardcoresnake.cpp lines 120-127): duplicate the tail, score += 10. -/
def Snake.grow (s : Snake) : Snake :=
  match s.body with
  | [] => s
  | h :: t =>
    { s with body := (h :: t) ++ [(h :: t).getLast (by simp)], score := s.score + 10 }

/-- Snake::reset (hardcoresnake.cpp lines 129-140): rebuild the 3-segment body
at startPos, directions NONE, alive, and score -= 10 (the death penalty). -/
def Snake.reset (s : Snake) (startPos : Position) : Snake :=
  { s with
    body := [startPos, ⟨startPos.x - 1, startPos.y⟩, ⟨startPos.x - 2, startPos.y⟩]
    direction := Direction.NONE
    nextDirection := Direction.NONE
    alive := true
    score := s.score - 10 }

/-- Snake::setBody: full overwrite, ignored when the incoming body is empty. -/
def Snake.setBody (s : Snake) (newBody : List Position) : Snake :=
  if newBody ≠ [] then { s with body := newBody } else s

/-- Snake::setScore. -/
def Snake.setScore (s : Snake) (newScore : Int) : Snake :=
  { s with score := newScore }

/-- Snake::setAlive. -/
def Snake.setAlive (s : Snake) (status : Bool) : Snake :=
  { s with alive := status }

-- ==================== Food spawning (hardcoresnake.cpp) ====================

/-- One sampled cell of attempt k: pos.x = rand() % GRID_WIDTH then
pos.y = rand() % GRID_HEIGHT, consuming rng calls 2k and 2k+1. -/
def sampleCell (rng : Nat → Nat) (k : Nat) : Position :=
  ⟨Int.ofNat (rng (2 * k) % 40), Int.ofNat (rng (2 * k + 1) % 30)⟩

/-- The retry loop of Food::spawn (hardcoresnake.cpp lines 154-177): keep the
first unoccupied sample; after MAX_FOOD_SPAWN_ATTEMPTS failures fall back to
one more unconditional sample (which may be occupied). -/
def foodSpawnLoop (occ : OccMap) (rng : Nat → Nat) : Nat → Nat → Position
  | attempt, 0 => sampleCell rng attempt
  | attempt, remaining + 1 =>
    let p := sampleCell rng attempt
    if occ (cellKey p) then foodSpawnLoop occ rng (attempt + 1) remaining else p

/-- Food::spawn: bounded-retry uniform sampling over the grid. -/
def Food.spawn (occ : OccMap) (rng : Nat → Nat) : Position :=
  foodSpawnLoop occ rng 0 MAX_FOOD_SPAWN_ATTEMPTS

-- ==================== Game state machine (game.h / game.cpp) ====================

/-- GameState enum from game.h. -/
inductive GState where
  | MENU
  | SINGLEPLAYER
  | MULTIPLAYER
  | LOBBY
  | COUNTDOWN
  | PAUSED
  | PLAYING
  | MATCH_END
deriving DecidableEq, Repr

/-- Game::isValidTransition (game.cpp lines 200-241). -/
def isValidTransition (src tgt : GState) : Bool :=
  if src = tgt then true
  else
    match src with
    | GState.MENU =>
      tgt = GState.SINGLEPLAYER ∨ tgt = GState.MULTIPLAYER ∨ tgt = GState.PLAYING
    | GState.SINGLEPLAYER =>
      tgt = GState.PLAYING ∨ tgt = GState.MENU
    | GState.MULTIPLAYER =>
      tgt = GState.LOBBY ∨ tgt = GState.MENU
    | GState.LOBBY =>
      tgt = GState.COUNTDOWN ∨ tgt = GState.PLAYING ∨ tgt = GState.MENU ∨ tgt = GState.MULTIPLAYER
    | GState.COUNTDOWN =>
      tgt = GState.PLAYING ∨ tgt = GState.LOBBY
    | GState.PLAYING =>
      tgt = GState.PAUSED ∨ tgt = GState.MATCH_END ∨ tgt = GState.MENU
    | GState.PAUSED =>
      tgt = GState.PLAYING ∨ tgt = GState.MENU
    | GState.MATCH_END =>
      tgt = GState.MENU ∨ tgt = GState.LOBBY

-- ==================== Player slots (hardcoresnake.h / multiplayer.h) ====================

/-- PlayerSlot from hardcoresnake.h: optional owned snake, peer id, active and
paused flags, last-send timestamp. -/
structure PlayerSlot where
  snake : Option Snake
  clientId : String
  active : Bool
  paused : Bool
  lastMpSent : Nat
deriving DecidableEq, Repr

/-- An unoccupied slot as initialised by the Game constructor. -/
def emptySlot : PlayerSlot :=
  { snake := none, clientId := "", active := false, paused := false, lastMpSent := 0 }

/-- PLAYER_SPAWN_POSITIONS from multiplayer.cpp lines 30-35
(W/4, H/4), (3W/4, H/4), (W/4, 3H/4), (3W/4, 3H/4) with W = 40, H = 30. -/
def PLAYER_SPAWN_POSITIONS : List Position :=
  [⟨10, 7⟩, ⟨30, 7⟩, ⟨10, 22⟩, ⟨30, 22⟩]

/-- The index-tracking scan behind find_player_by_client_id. -/
def findPlayerFrom (cid : String) : Nat → List PlayerSlot → Int
  | _, [] => -1
  | i, s :: rest =>
    if s.active ∧ s.clientId = cid then Int.ofNat i else findPlayerFrom cid (i + 1) rest

/-- find_player_by_client_id (multiplayer.cpp lines 639-649): index of the
first active slot with the given id, -1 when absent. -/
def find_player_by_client_id (slots : List PlayerSlot) (cid : String) : Int :=
  findPlayerFrom cid 0 slots

/-- add_player (multiplayer.cpp lines 623-637): occupy the first inactive slot
with a fresh snake at that slot index spawn position.  Note: no duplicate
check on clientId. -/
def add_player (cid : String) : Nat → List PlayerSlot → List PlayerSlot
  | _, [] => []
  | i, s :: rest =>
    if s.active = false then
      { s with
        snake := some (Snake.create (PLAYER_SPAWN_POSITIONS.getD i ⟨10, 7⟩))
        clientId := cid
        active := true
        lastMpSent := 0 } :: rest
    else s :: add_player cid (i + 1) rest

/-- remove_player (multiplayer.cpp lines 729-742): deactivate the first active
slot with this clientId (paused flag is left as is). -/
def remove_player (cid : String) : List PlayerSlot → List PlayerSlot
  | [] => []
  | s :: rest =>
    if s.active ∧ s.clientId = cid then
      { s with active := false, snake := none, clientId := "" } :: rest
    else s :: remove_player cid rest

/-- Game::buildCollisionMap (game.cpp lines 874-887) as an occupancy
characteristic function over the slots: a cell is marked iff some valid
slot snake body contains it. -/
def buildCollisionMap (slots : List PlayerSlot) : OccMap :=
  fun k =>
    slots.any fun s =>
      s.active && (match s.snake with
        | some sn => sn.body.any fun seg => decide (cellKey seg = k)
        | none => false)

-- ==================== Shared game context ====================

/-- The modelled fields of NetworkContext (multiplayer.h; the .cpp also uses
hostDisconnected and lastStateSyncReceived, included here).  connected models
api != nullptr; the message queue itself lives outside this record. -/
structure NetworkCtx where
  connected : Bool
  sessionId : String
  myClientId : String
  hostClientId : String
  isHost : Bool
  hostDisconnected : Bool
  connectionLost : Bool
  lastStateSyncReceived : Nat
deriving DecidableEq, Repr

/-- MatchState from multiplayer.h. -/
structure MatchState where
  matchStartTime : Nat
  syncedElapsedMs : Nat
  totalPausedTime : Nat
  pauseStartTime : Nat
  winnerIndex : Int
  pausedByClientId : String
deriving DecidableEq, Repr

/-- The Game-side context a message handler can reach: GameContext plus the
Game fields it mutates through the onStateChange callback (the current
GameState).  Times are Uint32 ticks modelled as Nat values below 2^32. -/
structure Ctx where
  network : NetworkCtx
  matchState : MatchState
  slots : List PlayerSlot
  myIndex : Int
  food : Position
  state : GState
deriving DecidableEq, Repr

/-- Uint32 subtraction now - before with wrap-around. -/
def u32sub (a b : Nat) : Nat := (a + 2 ^ 32 - b % 2 ^ 32) % 2 ^ 32

/-- Uint32 addition with wrap-around. -/
def u32add (a b : Nat) : Nat := (a + b) % 2 ^ 32

/-- PlayerManager::hasMe. -/
def hasMe (ctx : Ctx) : Bool := ctx.myIndex ≥ 0

/-- Write the paused flag of slot myIndex (players.me().paused = b).
Out-of-range access is undefined behaviour in the C++ std::array and is
modelled as a no-op. -/
def setMyPaused (ctx : Ctx) (b : Bool) : Ctx :=
  match ctx.myIndex with
  | Int.ofNat n =>
    match ctx.slots.get? n with
    | some s => { ctx with slots := ctx.slots.set n { s with paused := b } }
    | none => ctx
  | _ => ctx

/-- NetworkManager::shutdown (multiplayer.cpp lines 68-76). -/
def networkShutdown (ctx : Ctx) : Ctx :=
  if ctx.network.connected then
    { ctx with network :=
      { ctx.network with connected := false, sessionId := "", myClientId := "", isHost := false } }
  else ctx

/-- Game::resetGameState (game.cpp lines 889-904). -/
def resetGameState (ctx : Ctx) : Ctx :=
  let ctx1 := networkShutdown ctx
  { ctx1 with
    slots := ctx1.slots.map fun s => { s with active := false, snake := none }
    myIndex := -1
    matchState :=
      { ctx1.matchState with
        winnerIndex := -1, totalPausedTime := 0, pauseStartTime := 0, matchStartTime := 0 } }

/-- The pause-time folding of the PAUSED exit action (game.cpp lines 266-272):
totalPausedTime += now - pauseStartTime (Uint32 arithmetic), pauseStartTime
reset. -/
def exitPausedFold (ctx : Ctx) (now : Nat) : Ctx :=
  if ctx.matchState.pauseStartTime > 0 then
    { ctx with matchState :=
      { ctx.matchState with
        totalPausedTime :=
          u32add ctx.matchState.totalPausedTime (u32sub now ctx.matchState.pauseStartTime)
        pauseStartTime := 0 } }
  else ctx

/-- The players.me().paused = false write of the PAUSED exit action. -/
def exitPausedMe (ctx : Ctx) : Ctx :=
  if hasMe ctx then setMyPaused ctx false else ctx

/-- The locally-initiated-unpause branch of the PAUSED exit action (the send
itself is a no-op here, the pausedByClientId clear is kept). -/
def exitPausedSend (ctx : Ctx) (fromNetwork : Bool) : Ctx :=
  if fromNetwork = false ∧ ctx.network.connected ∧ hasMe ctx then
    { ctx with matchState := { ctx.matchState with pausedByClientId := "" } }
  else ctx

/-- Game::exitState (game.cpp lines 262-288): only leaving PAUSED has an
effect, composed of the three steps above in source order. -/
def exitState (ctx : Ctx) (oldState : GState) (fromNetwork : Bool) (now : Nat) : Ctx :=
  if oldState = GState.PAUSED then
    exitPausedSend (exitPausedMe (exitPausedFold ctx now)) fromNetwork
  else ctx

/-- Game::enterState (game.cpp lines 290-373).  Input-handler reassignment and
rendering have no observable effect on this context; the old game state is
still in ctx.state when this runs.  rng feeds Food::spawn for the
host-starts-match branch. -/
def enterPausedStamp (ctx : Ctx) (now : Nat) : Ctx :=
  { ctx with matchState := { ctx.matchState with pauseStartTime := now } }

/-- The players.me().paused = true write of the PAUSED enter action. -/
def enterPausedMe (ctx : Ctx) : Ctx :=
  if hasMe ctx then setMyPaused ctx true else ctx

/-- The locally-initiated-pause branch of the PAUSED enter action (the send is
a no-op here, the pausedByClientId stamp is kept). -/
def enterPausedSend (ctx : Ctx) (fromNetwork : Bool) : Ctx :=
  if fromNetwork = false ∧ ctx.network.connected ∧ hasMe ctx then
    { ctx with matchState :=
      { ctx.matchState with pausedByClientId := ctx.network.myClientId } }
  else ctx

/-- Entering PLAYING from the LOBBY (game.cpp lines 326-361): the host stamps
match timing and spawns food (and broadcasts, a no-op here); a client zeroes
its timing and waits for the sync. -/
def enterPlayingFromLobby (ctx : Ctx) (now : Nat) (rng : Nat → Nat) : Ctx :=
  if ctx.network.isHost then
    { ctx with
      matchState :=
        { ctx.matchState with
          matchStartTime := now, syncedElapsedMs := 0,
          totalPausedTime := 0, pauseStartTime := 0 }
      food := Food.spawn (buildCollisionMap ctx.slots) rng }
  else
    { ctx with matchState :=
      { ctx.matchState with
        syncedElapsedMs := 0, totalPausedTime := 0, pauseStartTime := 0 } }

/-- Game::enterState (game.cpp lines 290-373).  Input-handler reassignment and
rendering have no observable effect on this context; the old game state is
still in ctx.state when this runs. -/
def enterState (ctx : Ctx) (newState : GState) (fromNetwork : Bool) (now : Nat)
    (rng : Nat → Nat) : Ctx :=
  match newState with
  | GState.MENU => resetGameState ctx
  | GState.PAUSED => enterPausedSend (enterPausedMe (enterPausedStamp ctx now)) fromNetwork
  | GState.PLAYING =>
    if ctx.state = GState.LOBBY then enterPlayingFromLobby ctx now rng else ctx
  | _ => ctx

/-- Game::changeState (game.cpp lines 243-260): validate, run exit and enter
actions, commit the new state. -/
def changeState (ctx : Ctx) (newState : GState) (fromNetwork : Bool) (now : Nat)
    (rng : Nat → Nat) : Ctx :=
  if isValidTransition ctx.state newState = false then ctx
  else
    let ctx1 := exitState ctx ctx.state fromNetwork now
    let ctx2 := enterState { ctx1 with state := ctx.state } newState fromNetwork now rng
    { ctx2 with state := newState }

/-- The ctx.onStateChange callback installed by the Game constructor
(game.cpp lines 23-30): change state with fromNetwork = true, only when the
state actually differs. -/
def onStateChangeCb (ctx : Ctx) (newState : GState) (now : Nat) (rng : Nat → Nat) : Ctx :=
  if ctx.state ≠ newState then changeState ctx newState true now rng else ctx

-- ==================== Inbound message model (multiplayer.cpp) ====================

/-- NetworkMessageType from multiplayer.h. -/
inductive NetworkMessageType where
  | PLAYER_JOINED
  | PLAYER_LEFT
  | GAME_UPDATE
  | SYNC_REQUEST
  | HEARTBEAT
  | HOST_DISCONNECT
deriving DecidableEq, Repr

/-- NetworkMessage record pushed on the thread-safe queue. -/
structure NetworkMessage where
  type : NetworkMessageType
  clientId : String
deriving DecidableEq, Repr

/-- The host-left scan in on_multiplayer_event (multiplayer.cpp lines 264-272):
for i in 0..3, wasHost when slot i is active, holds the leaving clientId and
i == 0 (so only slot 0 can match). -/
def leftWasHost (slots : List PlayerSlot) (cid : String) : Bool :=
  (List.range MAX_PLAYERS).any fun i =>
    match slots.get? i with
    | some s => s.active && (s.clientId == cid) && (i == 0)
    | none => false

/-- on_multiplayer_event for the leaved transport event (multiplayer.cpp lines
256-279): tag the queued message, upgrading it to HOST_DISCONNECT when a
non-host observes the slot-0 occupant leave, and set hostDisconnected. -/
def onEventLeaved (ctx : Ctx) (cid : String) : NetworkMessage × Ctx :=
  if ctx.network.isHost = false ∧ leftWasHost ctx.slots cid then
    (⟨NetworkMessageType.HOST_DISCONNECT, cid⟩,
     { ctx with network := { ctx.network with hostDisconnected := true } })
  else (⟨NetworkMessageType.PLAYER_LEFT, cid⟩, ctx)

/-- handleHostDisconnect (multiplayer.cpp lines 794-805): trigger the
onStateChange callback towards MENU. -/
def handleHostDisconnect (ctx : Ctx) (now : Nat) (rng : Nat → Nat) : Ctx :=
  onStateChangeCb ctx GState.MENU now rng

/-- handlePlayerJoined (multiplayer.cpp lines 350-385): add the player
unconditionally; when it is me, adopt the slot index found for my id.  The
host-side state_sync reply is a send and has no effect on this context. -/
def handlePlayerJoined (ctx : Ctx) (cid : String) : Ctx :=
  if cid = ctx.network.myClientId then
    let ctx1 := { ctx with slots := add_player cid 0 ctx.slots }
    { ctx1 with myIndex := find_player_by_client_id ctx1.slots cid }
  else
    { ctx with slots := add_player cid 0 ctx.slots }

/-- handlePlayerLeft (multiplayer.cpp lines 387-390). -/
def handlePlayerLeft (ctx : Ctx) (cid : String) : Ctx :=
  { ctx with slots := remove_player cid ctx.slots }

-- ==================== state_sync handling (multiplayer.cpp lines 406-512) ====================

/-- The parsed fields of a state_sync wire payload.  A field is some v exactly
when the json object carries that key with the kind the handler tests for.
Integers destined for Uint32 fields are modelled as Nat (the truncation the
C++ assignment performs is identical on both applications compared here). -/
structure StateSyncPayload where
  foodX : Option Int
  foodY : Option Int
  matchStartTime : Option Nat
  elapsedMs : Option Nat
  gameState : Option String
  globalPaused : Option Bool
  pausedBy : Option String
  totalPausedTime : Option Nat
  pauseStartTime : Option Nat
  players : Option (List String)
deriving DecidableEq, Repr

/-- Food-position part of handleStateSync: both coordinates must be integers. -/
def syncFood (ctx : Ctx) (p : StateSyncPayload) : Ctx :=
  match p.foodX, p.foodY with
  | some fx, some fy => { ctx with food := ⟨fx, fy⟩ }
  | _, _ => ctx

/-- Match-timing part of handleStateSync. -/
def syncTiming (ctx : Ctx) (p : StateSyncPayload) : Ctx :=
  let ctx1 :=
    match p.matchStartTime with
    | some m => { ctx with matchState := { ctx.matchState with matchStartTime := m } }
    | none => ctx
  match p.elapsedMs with
  | some e => { ctx1 with matchState := { ctx1.matchState with syncedElapsedMs := e } }
  | none => ctx1

/-- Game-state part of handleStateSync: only the three literal strings are
recognised. -/
def syncGameState (ctx : Ctx) (p : StateSyncPayload) (now : Nat) (rng : Nat → Nat) : Ctx :=
  match p.gameState with
  | none => ctx
  | some str =>
    if str = "PLAYING" then onStateChangeCb ctx GState.PLAYING now rng
    else if str = "LOBBY" then onStateChangeCb ctx GState.LOBBY now rng
    else if str = "MATCH_END" then onStateChangeCb ctx GState.MATCH_END now rng
    else ctx

/-- The paused-flag broadcast applied to every active slot. -/
def setActivePaused (slots : List PlayerSlot) (b : Bool) : List PlayerSlot :=
  slots.map fun s => if s.active then { s with paused := b } else s

/-- Pause part of handleStateSync: requires both globalPaused and pausedBy,
optionally syncs pause timing, flips every active player's paused flag,
drives the state machine, and records who paused. -/
def syncPause (ctx : Ctx) (p : StateSyncPayload) (now : Nat) (rng : Nat → Nat) : Ctx :=
  match p.globalPaused, p.pausedBy with
  | some isPaused, some pauser =>
    let ctx1 :=
      match p.totalPausedTime with
      | some t => { ctx with matchState := { ctx.matchState with totalPausedTime := t } }
      | none => ctx
    let ctx2 :=
      match p.pauseStartTime with
      | some t => { ctx1 with matchState := { ctx1.matchState with pauseStartTime := t } }
      | none => ctx1
    let ctx3 := { ctx2 with slots := setActivePaused ctx2.slots isPaused }
    let ctx4 :=
      if isPaused then onStateChangeCb ctx3 GState.PAUSED now rng
      else onStateChangeCb ctx3 GState.PLAYING now rng
    { ctx4 with matchState :=
      { ctx4.matchState with pausedByClientId := if isPaused then pauser else "" } }
  | _, _ => ctx

/-- One roster entry of the players array: add the id when it is unknown, and
adopt the index as mine when it is my id and my index is still unassigned. -/
def rosterStep (ctx : Ctx) (pid : String) : Ctx :=
  if find_player_by_client_id ctx.slots pid < 0 then
    let ctx1 := { ctx with slots := add_player pid 0 ctx.slots }
    if pid = ctx1.network.myClientId ∧ ctx1.myIndex < 0 then
      { ctx1 with myIndex := find_player_by_client_id ctx1.slots pid }
    else ctx1
  else ctx

/-- Roster part of handleStateSync. -/
def syncRoster (ctx : Ctx) (p : StateSyncPayload) : Ctx :=
  match p.players with
  | none => ctx
  | some ids => ids.foldl rosterStep ctx

/-- handleStateSync (multiplayer.cpp lines 406-512), in source order: stamp
lastStateSyncReceived, then food, timing, game state, pause, roster. -/
def handleStateSync (ctx : Ctx) (p : StateSyncPayload) (now : Nat) (rng : Nat → Nat) : Ctx :=
  syncRoster (syncPause (syncGameState (syncTiming (syncFood
    { ctx with network := { ctx.network with lastStateSyncReceived := now } } p) p)
    p now rng) p now rng) p

-- ==================== Per-actor update (multiplayer.cpp lines 651-727) ====================

/-- One body segment of a per-actor update payload: the handler reads keys x
and y and skips the segment unless both are integers. -/
structure WireSeg where
  xVal : Option Int
  yVal : Option Int
deriving DecidableEq, Repr

/-- The parsed fields of a per-actor (game-data echo) update payload. -/
structure PlayerUpdatePayload where
  body : Option (List WireSeg)
  score : Option Int
  alive : Option Bool
  paused : Option Bool
deriving DecidableEq, Repr

/-- The body-collection loop of update_remote_player: segments missing integer
coordinates are skipped, and the first out-of-bounds position aborts the whole
update (modelled as none). -/
def collectBody : List WireSeg → Option (List Position)
  | [] => some []
  | seg :: rest =>
    match seg.xVal, seg.yVal with
    | some x, some y =>
      if x < 0 ∨ x ≥ GRID_WIDTH ∨ y < 0 ∨ y ≥ GRID_HEIGHT then none
      else (collectBody rest).map fun tl => Position.mk x y :: tl
    | _, _ => collectBody rest

/-- Apply the validated parts of a per-actor update to one snake-bearing slot. -/
def applyUpdateToSlot (s : PlayerSlot) (sn : Snake) (p : PlayerUpdatePayload) : PlayerSlot :=
  let sn1 :=
    match p.body with
    | some segs =>
      if segs.length > 0 then
        match collectBody segs with
        | none => sn
        | some nb => if nb ≠ [] then sn.setBody nb else sn
      else sn
    | none => sn
  let sn2 :=
    match p.score with
    | some sc => if 0 ≤ sc ∧ sc ≤ 10000 then sn1.setScore sc else sn1
    | none => sn1
  let sn3 :=
    match p.alive with
    | some a => sn2.setAlive a
    | none => sn2
  let s1 := { s with snake := some sn3 }
  match p.paused with
  | some pf => { s1 with paused := pf }
  | none => s1

/-- update_remote_player (multiplayer.cpp lines 651-727).  A missing slot, a
body with an out-of-bounds segment (early return) or an oversized body (early
return) leaves the slots untouched; otherwise body, score, alive and paused
are applied with their individual validations. -/
def update_remote_player (slots : List PlayerSlot) (cid : String)
    (p : PlayerUpdatePayload) : List PlayerSlot :=
  match find_player_by_client_id slots cid with
  | Int.ofNat idx =>
    match slots.get? idx with
    | some s =>
      match s.snake with
      | some sn =>
        let rejected :=
          match p.body with
          | some segs =>
            if segs.length > 0 then
              match collectBody segs with
              | none => true
              | some nb => nb.length > 400
            else false
          | none => false
        if rejected then slots
        else slots.set idx (applyUpdateToSlot s sn p)
      | none => slots
    | none => slots
  | _ => slots

-- ==================== Winner resolution (game.cpp lines 632-668) ====================

/-- The accumulator of the first winner pass: running max body length, running
winner index, and the indices currently tied at the max. -/
structure WinAcc where
  maxLength : Nat
  winnerIndex : Int
  tied : List Nat
deriving DecidableEq, Repr

/-- One iteration of the longest-snake loop (game.cpp lines 637-653). -/
def winStep (acc : WinAcc) (i : Nat) (s : PlayerSlot) : WinAcc :=
  if s.active = false then acc
  else
    match s.snake with
    | none => acc
    | some sn =>
      let len := sn.body.length
      if len > acc.maxLength then ⟨len, Int.ofNat i, [i]⟩
      else if len = acc.maxLength ∧ acc.maxLength > 0 then
        { acc with tied := acc.tied ++ [i] }
      else acc

/-- The longest-snake pass over all slots, starting from maxLength 0 and
winnerIndex -1. -/
def winPass1 (slots : List PlayerSlot) : WinAcc :=
  (slots.enum).foldl (fun acc p => winStep acc p.1 p.2) ⟨0, -1, []⟩

/-- ctx.players[idx].snake->getScore() for a tied index (always in range and
snake-bearing when produced by the first pass; 0 as an unreachable default). -/
def slotScore (slots : List PlayerSlot) (i : Nat) : Int :=
  match (slots.get? i).bind (fun s => s.snake) with
  | some sn => sn.score
  | none => 0

/-- The score tie-break loop (game.cpp lines 656-668): starting from
maxScore -1 and winner -1, take every index whose score strictly exceeds the
running max. -/
def winPass2 (slots : List PlayerSlot) (tied : List Nat) : Int :=
  (tied.foldl
    (fun (acc : Int × Int) idx =>
      if slotScore slots idx > acc.1 then (slotScore slots idx, Int.ofNat idx) else acc)
    (-1, -1)).2

/-- The match-end winner computation embedded in Game::checkMatchTimer
(game.cpp lines 632-668): longest body wins; on a length tie among more than
one player, the score loop decides. -/
def computeWinner (slots : List PlayerSlot) : Int :=
  let acc := winPass1 slots
  if acc.tied.length > 1 then winPass2 slots acc.tied else acc.winnerIndex

-- ==================== Match reset operations (game.cpp) ====================

/-- The per-snake effect of Game::resetMatch (game.cpp lines 849-851):
snake->reset(spawnPos) followed by snake->setScore(0).  The spawn position is
drawn by getRandomSpawnPosition in the source and is a parameter here. -/
def resetForNewMatch (s : Snake) (spawnPos : Position) : Snake :=
  (s.reset spawnPos).setScore 0

/-- Game::respawnPlayer (game.cpp lines 820-824) acting on the player's snake:
snake->reset(randomPos), which keeps the accumulated score minus the death
penalty. -/
def respawnSnake (s : Snake) (spawnPos : Position) : Snake :=
  s.reset spawnPos

-- ==================== Spec-side definitions (for refinement comparisons) ====================

/-- The transition table exactly as written in the spec, section 4.7:
MENU to SINGLEPLAYER-start or MULTIPLAYER-browse; MULTIPLAYER to LOBBY or
MENU; LOBBY to PLAYING or MENU; PLAYING to PAUSED, MATCH_END or MENU;
PAUSED to PLAYING or MENU; MATCH_END to MENU or LOBBY. -/
def specTransitionTable (src tgt : GState) : Bool :=
  match src, tgt with
  | GState.MENU, GState.SINGLEPLAYER => true
  | GState.MENU, GState.MULTIPLAYER => true
  | GState.MULTIPLAYER, GState.LOBBY => true
  | GState.MULTIPLAYER, GState.MENU => true
  | GState.LOBBY, GState.PLAYING => true
  | GState.LOBBY, GState.MENU => true
  | GState.PLAYING, GState.PAUSED => true
  | GState.PLAYING, GState.MATCH_END => true
  | GState.PLAYING, GState.MENU => true
  | GState.PAUSED, GState.PLAYING => true
  | GState.PAUSED, GState.MENU => true
  | GState.MATCH_END, GState.MENU => true
  | GState.MATCH_END, GState.LOBBY => true
  | _, _ => false

/-- The transitions Game::isValidTransition accepts beyond same-state and the
spec table: direct singleplayer start, the SINGLEPLAYER transient state, the
COUNTDOWN round trips and the LOBBY back-off to the browser. -/
def extraTransitions (src tgt : GState) : Bool :=
  match src, tgt with
  | GState.MENU, GState.PLAYING => true
  | GState.SINGLEPLAYER, GState.PLAYING => true
  | GState.SINGLEPLAYER, GState.MENU => true
  | GState.LOBBY, GState.COUNTDOWN => true
  | GState.LOBBY, GState.MULTIPLAYER => true
  | GState.COUNTDOWN, GState.PLAYING => true
  | GState.COUNTDOWN, GState.LOBBY => true
  | _, _ => false

-- ==================== Concrete fixtures for counterexamples and witnesses ====================

/-- A constant random stream: rand() always returns 0. -/
def rngZero : Nat → Nat := fun _ => 0

/-- An occupancy map with exactly cell (0,0) occupied. -/
def occOrigin : OccMap := fun k => k == 0

/-- A fully free occupancy map. -/
def occFree : OccMap := fun _ => false

/-- An alive, already-moving test snake heading RIGHT. -/
def snakeMoving : Snake :=
  { body := [⟨5, 5⟩, ⟨4, 5⟩, ⟨3, 5⟩]
    direction := Direction.RIGHT
    nextDirection := Direction.RIGHT
    alive := true
    score := 0 }

/-- An occupied slot holding the given snake under the given id. -/
def activeSlot (cid : String) (sn : Snake) : PlayerSlot :=
  { snake := some sn, clientId := cid, active := true, paused := false, lastMpSent := 0 }

/-- A length-4, score-10 snake for the tie scenario (row 1). -/
def tieSnakeA : Snake :=
  { body := [⟨1, 1⟩, ⟨2, 1⟩, ⟨3, 1⟩, ⟨4, 1⟩]
    direction := Direction.RIGHT
    nextDirection := Direction.RIGHT
    alive := true
    score := 10 }

/-- A length-4, score-10 snake for the tie scenario (row 3). -/
def tieSnakeB : Snake :=
  { body := [⟨1, 3⟩, ⟨2, 3⟩, ⟨3, 3⟩, ⟨4, 3⟩]
    direction := Direction.RIGHT
    nextDirection := Direction.RIGHT
    alive := true
    score := 10 }

/-- Two active slots fully tied on body length 4 and score 10. -/
def slotsFullTie : List PlayerSlot :=
  [activeSlot "A" tieSnakeA, activeSlot "B" tieSnakeB, emptySlot, emptySlot]

/-- A baseline context: a connected non-host client C in session s with all
slots free, in the PLAYING state. -/
def ctxBase : Ctx :=
  { network :=
    { connected := true, sessionId := "s", myClientId := "C", hostClientId := ""
      isHost := false, hostDisconnected := false, connectionLost := false
      lastStateSyncReceived := 0 }
    matchState :=
    { matchStartTime := 0, syncedElapsedMs := 0, totalPausedTime := 0
      pauseStartTime := 0, winnerIndex := -1, pausedByClientId := "" }
    slots := [emptySlot, emptySlot, emptySlot, emptySlot]
    myIndex := -1
    food := ⟨0, 0⟩
    state := GState.PLAYING }

/-- An all-fields-absent state_sync payload to build concrete payloads from. -/
def emptyStateSync : StateSyncPayload :=
  { foodX := none, foodY := none, matchStartTime := none, elapsedMs := none
    gameState := none, globalPaused := none, pausedBy := none
    totalPausedTime := none, pauseStartTime := none, players := none }

/-- An all-fields-absent per-actor update payload. -/
def emptyPlayerUpdate : PlayerUpdatePayload :=
  { body := none, score := none, alive := none, paused := none }

-- ==================== Supporting lemmas ====================

/-- The body-collection loop rejects (returns none) as soon as any segment
with integer coordinates lies outside the grid. -/
theorem collectBody_none_of_oob (segs : List WireSeg)
    (h : ∃ seg ∈ segs, ∃ x y, seg.xVal = some x ∧ seg.yVal = some y ∧
      (x < 0 ∨ x ≥ GRID_WIDTH ∨ y < 0 ∨ y ≥ GRID_HEIGHT)) :
    collectBody segs = none := by
  induction segs with
  | nil => simp at h
  | cons seg rest ih =>
    obtain ⟨s0, hmem, x, y, hx, hy, hoob⟩ := h
    rcases List.mem_cons.mp hmem with heq | hmem2
    · subst heq
      simp only [collectBody, hx, hy]
      rw [if_pos hoob]
    · have hrest : collectBody rest = none := ih ⟨s0, hmem2, x, y, hx, hy, hoob⟩
      cases hx2 : seg.xVal with
      | none => simpa [collectBody, hx2] using hrest
      | some x2 =>
        cases hy2 : seg.yVal with
        | none => simpa [collectBody, hx2, hy2] using hrest
        | some y2 =>
          simp only [collectBody, hx2, hy2]
          split
          · rfl
          · simp [hrest]

/-- The retry loop returns an unoccupied cell whenever one of its samples is
unoccupied. -/
theorem foodSpawnLoop_unoccupied (occ : OccMap) (rng : Nat → Nat) :
    ∀ (remaining attempt : Nat),
      (∃ i, attempt ≤ i ∧ i < attempt + remaining ∧
        occ (cellKey (sampleCell rng i)) = false) →
      occ (cellKey (foodSpawnLoop occ rng attempt remaining)) = false := by
  intro remaining
  induction remaining with
  | zero =>
    intro attempt h
    obtain ⟨i, h1, h2, _⟩ := h
    omega
  | succ r ih =>
    intro attempt h
    obtain ⟨i, h1, h2, h3⟩ := h
    cases hocc : occ (cellKey (sampleCell rng attempt)) with
    | false => simp [foodSpawnLoop, hocc]
    | true =>
      simp only [foodSpawnLoop, hocc, if_true]
      apply ih
      have hne : i ≠ attempt := by
        intro heq
        rw [heq] at h3
        rw [h3] at hocc
        exact Bool.noConfusion hocc
      exact ⟨i, by omega, by omega, h3⟩

-- ==================== C3 ====================

/-- C3: an inbound per-actor update whose body array has a segment with a
position outside the grid bounds is rejected whole: the slots (hence the
target actor's body, score, alive flag and paused flag) are unchanged. -/
theorem update_remote_player_oob_rejected (slots : List PlayerSlot) (cid : String)
    (p : PlayerUpdatePayload) (segs : List WireSeg)
    (hb : p.body = some segs)
    (h : ∃ seg ∈ segs, ∃ x y, seg.xVal = some x ∧ seg.yVal = some y ∧
      (x < 0 ∨ x ≥ GRID_WIDTH ∨ y < 0 ∨ y ≥ GRID_HEIGHT)) :
    update_remote_player slots cid p = slots := by
  have hnone := collectBody_none_of_oob segs h
  have hlen : segs.length > 0 := by
    obtain ⟨s0, hmem, _⟩ := h
    cases segs with
    | nil => simp at hmem
    | cons a t => simp
  cases hfind : find_player_by_client_id slots cid with
  | negSucc n => simp [update_remote_player, hfind]
  | ofNat idx =>
    cases hget : slots.get? idx with
    | none =>
      rw [List.get?_eq_getElem?] at hget
      simp [update_remote_player, hfind, hget]
    | some s =>
      rw [List.get?_eq_getElem?] at hget
      cases hsn : s.snake with
      | none => simp [update_remote_player, hfind, hget, hsn]
      | some sn => simp [update_remote_player, hfind, hget, hsn, hb, hlen, hnone]

/-- C3 witness: a concrete out-of-bounds update against concrete slots is a
no-op, by the rejection theorem. -/
theorem update_remote_player_oob_rejected_witness :
    update_remote_player slotsFullTie ("A")
      { emptyPlayerUpdate with body := some [⟨some 999, some 5⟩] } = slotsFullTie :=
  update_remote_player_oob_rejected slotsFullTie ("A")
    { emptyPlayerUpdate with body := some [⟨some 999, some 5⟩] }
    [⟨some 999, some 5⟩] rfl
    ⟨⟨some 999, some 5⟩, by simp, 999, 5, rfl, rfl, by decide⟩

-- ==================== C8 ====================

/-- C8: the two reset operations differ exactly on score: a new-match reset
(reset then setScore(0)) leaves score 0, a death respawn (reset alone) leaves
score equal to the prior score minus the fixed penalty 10; both rebuild the
3-segment body at the given spawn position, direction NONE, alive true. -/
theorem reset_score_asymmetry (s : Snake) (p : Position) :
    (resetForNewMatch s p).score = 0 ∧
    (respawnSnake s p).score = s.score - 10 ∧
    (resetForNewMatch s p).body = [p, ⟨p.x - 1, p.y⟩, ⟨p.x - 2, p.y⟩] ∧
    (respawnSnake s p).body = [p, ⟨p.x - 1, p.y⟩, ⟨p.x - 2, p.y⟩] ∧
    (resetForNewMatch s p).body.length = 3 ∧
    (respawnSnake s p).body.length = 3 ∧
    (resetForNewMatch s p).direction = Direction.NONE ∧
    (respawnSnake s p).direction = Direction.NONE ∧
    (resetForNewMatch s p).alive = true ∧
    (respawnSnake s p).alive = true := by
  simp [resetForNewMatch, respawnSnake, Snake.reset, Snake.setScore]

-- ==================== C10 ====================

/-- C10: the local score is not bounded below: every respawn subtracts the
fixed penalty 10, two respawns of a fresh snake give score -20 which is
negative, while an inbound remote score outside the 0..10000 range (here -5)
is ignored, leaving the slots unchanged. -/
theorem score_not_bounded_below :
    (∀ (s : Snake) (p : Position), (s.reset p).score = s.score - 10) ∧
    (((Snake.create ⟨5, 5⟩).reset ⟨7, 7⟩).reset ⟨9, 9⟩).score = -20 ∧
    (((Snake.create ⟨5, 5⟩).reset ⟨7, 7⟩).reset ⟨9, 9⟩).score < 0 ∧
    update_remote_player slotsFullTie ("A")
      { emptyPlayerUpdate with score := some (-5) } = slotsFullTie := by
  refine ⟨fun s p => rfl, by decide, by decide, by decide⟩

-- ==================== C4 ====================

/-- The exact reverse of a movement direction (NONE has no reverse). -/
def reverseDir : Direction → Direction
  | Direction.UP => Direction.DOWN
  | Direction.DOWN => Direction.UP
  | Direction.LEFT => Direction.RIGHT
  | Direction.RIGHT => Direction.LEFT
  | Direction.NONE => Direction.NONE

/-- For an actor already moving, setDirection only records the pending
direction (no body change) whenever the request is a real direction that is
not the exact reverse of the current one. -/
theorem setDirection_of_moving (s : Snake) (d : Direction)
    (hdir : s.direction ≠ Direction.NONE) (hd : d ≠ Direction.NONE)
    (hrev : d ≠ reverseDir s.direction) :
    s.setDirection d = { s with nextDirection := d } := by
  have hcond : (d = Direction.UP ∧ s.direction ≠ Direction.DOWN) ∨
      (d = Direction.DOWN ∧ s.direction ≠ Direction.UP) ∨
      (d = Direction.LEFT ∧ s.direction ≠ Direction.RIGHT) ∨
      (d = Direction.RIGHT ∧ s.direction ≠ Direction.LEFT) := by
    cases d <;> cases hsd : s.direction <;> simp_all [reverseDir]
  obtain ⟨body, dir0, nd0, al0, sc0⟩ := s
  simp only at hdir hcond
  cases body with
  | nil => simp [Snake.setDirection, hcond]
  | cons a t =>
    cases t with
    | nil => simp [Snake.setDirection, hcond]
    | cons b t2 => simp [Snake.setDirection, hdir, hcond]

/-- C4 counterexample: a freshly created actor at (3,3) is not yet moving;
setDirection(LEFT) reverses the body, so the next update puts the head at
(0,3), three cells left of the old head (3,3) instead of the claimed one
cell (2,3). -/
theorem setDirection_update_counterexample :
    (Snake.create ⟨3, 3⟩).direction = Direction.NONE ∧
    (Snake.create ⟨3, 3⟩).body.head? = some ⟨3, 3⟩ ∧
    movePos ⟨3, 3⟩ Direction.LEFT = ⟨2, 3⟩ ∧
    (((Snake.create ⟨3, 3⟩).setDirection Direction.LEFT).update).body.head? = some ⟨0, 3⟩ ∧
    (((Snake.create ⟨3, 3⟩).setDirection Direction.LEFT).update).body.head? ≠ some ⟨2, 3⟩ := by
  decide

/-- C4 (amended): for every alive actor that is already moving (direction not
NONE) with a nonempty body, and every real direction d that is not the exact
reverse of the current direction, setDirection(d) followed by update() moves
the head exactly one cell in direction d and keeps the body length. -/
theorem setDirection_update_moves_head (s : Snake) (d : Direction)
    (halive : s.alive = true) (hbody : s.body ≠ [])
    (hdir : s.direction ≠ Direction.NONE) (hd : d ≠ Direction.NONE)
    (hrev : d ≠ reverseDir s.direction) :
    ((s.setDirection d).update).body.head? =
      (s.body.head?).map (fun h => movePos h d) ∧
    ((s.setDirection d).update).body.length = s.body.length := by
  rw [setDirection_of_moving s d hdir hd hrev]
  obtain ⟨body, dir0, nd0, al0, sc0⟩ := s
  simp only at halive hbody ⊢
  subst halive
  cases body with
  | nil => exact absurd rfl hbody
  | cons h t =>
    cases t <;> simp [Snake.update, hd, List.dropLast]

/-- C4 witness: the amended theorem applied to a concrete moving snake and
the UP direction. -/
theorem setDirection_update_moves_head_witness :
    ((snakeMoving.setDirection Direction.UP).update).body.head? =
      (snakeMoving.body.head?).map (fun h => movePos h Direction.UP) ∧
    ((snakeMoving.setDirection Direction.UP).update).body.length =
      snakeMoving.body.length :=
  setDirection_update_moves_head snakeMoving Direction.UP (by decide) (by decide)
    (by decide) (by decide) (by decide)

-- ==================== C7 ====================

/-- Under the all-zero random stream every sample is (0,0), so the loop
returns (0,0) from any starting point when exactly that cell is occupied. -/
theorem foodSpawnLoop_occOrigin_const :
    ∀ (remaining attempt : Nat),
      foodSpawnLoop occOrigin rngZero attempt remaining = ⟨0, 0⟩ := by
  intro remaining
  induction remaining with
  | zero => intro attempt; rfl
  | succ r ih =>
    intro attempt
    simpa [foodSpawnLoop, sampleCell, rngZero, occOrigin, cellKey] using ih (attempt + 1)

/-- C7 counterexample: with only cell (0,0) occupied (the grid is far from
full) and a random stream that always returns 0, every bounded attempt and
the final fallback sample all land on (0,0), so Food::spawn returns an
occupied cell. -/
theorem food_spawn_counterexample :
    occOrigin (cellKey ⟨1, 0⟩) = false ∧
    Food.spawn occOrigin rngZero = ⟨0, 0⟩ ∧
    occOrigin (cellKey (Food.spawn occOrigin rngZero)) = true := by
  have hspawn : Food.spawn occOrigin rngZero = ⟨0, 0⟩ :=
    foodSpawnLoop_occOrigin_const MAX_FOOD_SPAWN_ATTEMPTS 0
  refine ⟨by decide, hspawn, ?_⟩
  rw [hspawn]
  decide

/-- C7 (amended): the food spawn draw returns an unoccupied position whenever
at least one of its bounded random attempts samples an unoccupied cell; only
when all MAX_FOOD_SPAWN_ATTEMPTS samples are occupied does the fallback draw
return a possibly occupied cell. -/
theorem food_spawn_unoccupied (occ : OccMap) (rng : Nat → Nat)
    (h : ∃ i, i < MAX_FOOD_SPAWN_ATTEMPTS ∧
      occ (cellKey (sampleCell rng i)) = false) :
    occ (cellKey (Food.spawn occ rng)) = false := by
  obtain ⟨i, hi, hfree⟩ := h
  exact foodSpawnLoop_unoccupied occ rng MAX_FOOD_SPAWN_ATTEMPTS 0
    ⟨i, Nat.zero_le i, by omega, hfree⟩

/-- C7 witness: with a fully free grid the first attempt is free and the
spawn result is unoccupied, by the amended theorem. -/
theorem food_spawn_unoccupied_witness :
    occFree (cellKey (Food.spawn occFree rngZero)) = false :=
  food_spawn_unoccupied occFree rngZero ⟨0, by decide, rfl⟩

-- ==================== C9 ====================

/-- C9 counterexample: the code accepts the LOBBY to COUNTDOWN transition,
which is absent from the spec transition table and is not a same-state
transition. -/
theorem transition_table_counterexample :
    isValidTransition GState.LOBBY GState.COUNTDOWN = true ∧
    specTransitionTable GState.LOBBY GState.COUNTDOWN = false ∧
    GState.LOBBY ≠ GState.COUNTDOWN := by
  decide

/-- C9 (amended): the accepted transitions are exactly same-state plus the
spec table plus the seven extra code transitions (MENU to PLAYING,
SINGLEPLAYER to PLAYING or MENU, LOBBY to COUNTDOWN or MULTIPLAYER, and
COUNTDOWN to PLAYING or LOBBY); every rejected request leaves the whole
context, in particular the current state, unchanged. -/
theorem transition_table_characterization :
    (∀ src tgt, isValidTransition src tgt =
      (decide (src = tgt) || specTransitionTable src tgt || extraTransitions src tgt)) ∧
    (∀ (ctx : Ctx) (tgt : GState) (fromNetwork : Bool) (now : Nat) (rng : Nat → Nat),
      isValidTransition ctx.state tgt = false →
      changeState ctx tgt fromNetwork now rng = ctx) := by
  constructor
  · intro src tgt
    cases src <;> cases tgt <;> rfl
  · intro ctx tgt fromNetwork now rng hinv
    simp [changeState, hinv]

/-- C9 witness: the characterization applied to the concrete rejected request
PLAYING to LOBBY. -/
theorem transition_table_characterization_witness :
    changeState ctxBase GState.LOBBY false 0 rngZero = ctxBase :=
  transition_table_characterization.2 ctxBase GState.LOBBY false 0 rngZero (by decide)

-- ==================== C5 ====================

/-- The state_sync roster payload listing the host H and the client C. -/
def rosterHC : StateSyncPayload :=
  { emptyStateSync with players := some [("H"), ("C")] }

/-- C5: duplicate-slot violation.  A client C first learns the roster [H, C]
from a state_sync (which de-duplicates), then processes its own transport
joined event: handlePlayerJoined adds C again without any duplicate check,
leaving two active slots that both hold clientId C. -/
theorem duplicate_client_slots :
    ((handlePlayerJoined (handleStateSync ctxBase rosterHC 0 rngZero) ("C")).slots.filter
      (fun s => s.active && (s.clientId == "C"))).length = 2 := by
  decide

-- ==================== C6 ====================

/-- setMyPaused only rewrites the slot list. -/
@[simp] theorem setMyPaused_network (ctx : Ctx) (b : Bool) :
    (setMyPaused ctx b).network = ctx.network := by
  unfold setMyPaused
  split
  · split <;> rfl
  · rfl

/-- setMyPaused leaves the game state unchanged. -/
@[simp] theorem setMyPaused_state (ctx : Ctx) (b : Bool) :
    (setMyPaused ctx b).state = ctx.state := by
  unfold setMyPaused
  split
  · split <;> rfl
  · rfl

@[simp] theorem exitPausedFold_network (ctx : Ctx) (n : Nat) :
    (exitPausedFold ctx n).network = ctx.network := by
  unfold exitPausedFold; split <;> rfl

@[simp] theorem exitPausedFold_state (ctx : Ctx) (n : Nat) :
    (exitPausedFold ctx n).state = ctx.state := by
  unfold exitPausedFold; split <;> rfl

@[simp] theorem exitPausedMe_network (ctx : Ctx) :
    (exitPausedMe ctx).network = ctx.network := by
  unfold exitPausedMe; split
  · exact setMyPaused_network ctx false
  · rfl

@[simp] theorem exitPausedMe_state (ctx : Ctx) :
    (exitPausedMe ctx).state = ctx.state := by
  unfold exitPausedMe; split
  · exact setMyPaused_state ctx false
  · rfl

@[simp] theorem exitPausedSend_network (ctx : Ctx) (f : Bool) :
    (exitPausedSend ctx f).network = ctx.network := by
  unfold exitPausedSend; split <;> rfl

@[simp] theorem exitPausedSend_state (ctx : Ctx) (f : Bool) :
    (exitPausedSend ctx f).state = ctx.state := by
  unfold exitPausedSend; split <;> rfl

/-- Exit actions never touch the network sub-context. -/
@[simp] theorem exitState_network (ctx : Ctx) (o : GState) (f : Bool) (n : Nat) :
    (exitState ctx o f n).network = ctx.network := by
  unfold exitState; split <;> simp

/-- Exit actions never change the current state field. -/
@[simp] theorem exitState_state (ctx : Ctx) (o : GState) (f : Bool) (n : Nat) :
    (exitState ctx o f n).state = ctx.state := by
  unfold exitState; split <;> simp

/-- A deactivated slot list is all-inactive. -/
theorem all_inactive_after_map (l : List PlayerSlot) :
    ((l.map fun s => { s with active := false, snake := none }).all
      fun s => s.active == false) = true := by
  induction l with
  | nil => rfl
  | cons a t ih => simp_all

/-- C6 counterexample: a non-host whose tracked host id is H, while H sits in
slot 1 and some other peer A sits in slot 0.  The leaving peer id H equals the
tracked host id, yet the event is enqueued as a plain PLAYER_LEFT, because the
code keys host detection on slot-0 occupancy, not on the tracked host id. -/
theorem host_disconnect_counterexample :
    ({ ctxBase with
        network := { ctxBase.network with hostClientId := "H" }
        slots := [activeSlot "A" tieSnakeA, activeSlot "H" tieSnakeB, emptySlot,
          emptySlot] }.network.hostClientId = "H") ∧
    (onEventLeaved
      { ctxBase with
        network := { ctxBase.network with hostClientId := "H" }
        slots := [activeSlot "A" tieSnakeA, activeSlot "H" tieSnakeB, emptySlot,
          emptySlot] } ("H")).1.type = NetworkMessageType.PLAYER_LEFT ∧
    (onEventLeaved
      { ctxBase with
        network := { ctxBase.network with hostClientId := "H" }
        slots := [activeSlot "A" tieSnakeA, activeSlot "H" tieSnakeB, emptySlot,
          emptySlot] } ("H")).1.type ≠ NetworkMessageType.HOST_DISCONNECT := by
  decide

/-- C6 (amended): for a connected non-host, a left event whose peer occupies
the active slot 0 (the criterion the code actually uses for "the host") is
tagged HOST_DISCONNECT at enqueue time, and processing it from any state other
than MENU and COUNTDOWN lands in MENU with the session cleared: session id
empty, role reset to non-host, my-slot index unassigned and every slot
deactivated. -/
theorem host_disconnect_slot0 (ctx : Ctx) (cid : String) (now : Nat) (rng : Nat → Nat)
    (hhost : ctx.network.isHost = false)
    (hconn : ctx.network.connected = true)
    (s0 : PlayerSlot) (hget : ctx.slots.get? 0 = some s0)
    (hact : s0.active = true) (hcid : s0.clientId = cid)
    (hmenu : ctx.state ≠ GState.MENU) (hcd : ctx.state ≠ GState.COUNTDOWN) :
    (onEventLeaved ctx cid).1.type = NetworkMessageType.HOST_DISCONNECT ∧
    (handleHostDisconnect (onEventLeaved ctx cid).2 now rng).state = GState.MENU ∧
    (handleHostDisconnect (onEventLeaved ctx cid).2 now rng).network.sessionId = "" ∧
    (handleHostDisconnect (onEventLeaved ctx cid).2 now rng).network.isHost = false ∧
    (handleHostDisconnect (onEventLeaved ctx cid).2 now rng).myIndex = -1 ∧
    ((handleHostDisconnect (onEventLeaved ctx cid).2 now rng).slots.all
      fun s => s.active == false) = true := by
  have hget2 : ctx.slots[0]? = some s0 := by
    rw [← List.get?_eq_getElem?]
    exact hget
  have htag : leftWasHost ctx.slots cid = true := by
    refine List.any_eq_true.mpr ⟨0, ?_, ?_⟩
    · simp [MAX_PLAYERS]
    · simp [hget2, hact, hcid]
  have honev : onEventLeaved ctx cid =
      (⟨NetworkMessageType.HOST_DISCONNECT, cid⟩,
       { ctx with network := { ctx.network with hostDisconnected := true } }) := by
    simp [onEventLeaved, hhost, htag]
  rw [honev]
  have hvalid : isValidTransition ctx.state GState.MENU = true := by
    cases hst : ctx.state <;> simp_all [isValidTransition]
  have hrun : handleHostDisconnect
      { ctx with network := { ctx.network with hostDisconnected := true } } now rng =
      { resetGameState
        { exitState { ctx with network := { ctx.network with hostDisconnected := true } }
            ctx.state true now with state := ctx.state } with state := GState.MENU } := by
    show (if _ ≠ GState.MENU then _ else _) = _
    rw [if_pos hmenu]
    show (if _ = false then _ else _) = _
    rw [if_neg (by simp [hvalid])]
    rfl
  rw [hrun]
  have hconn2 : ({ exitState
      { ctx with network := { ctx.network with hostDisconnected := true } }
      ctx.state true now with state := ctx.state } : Ctx).network.connected = true := by
    show (exitState _ _ _ _).network.connected = true
    rw [exitState_network]
    exact hconn
  generalize hX : ({ exitState
      { ctx with network := { ctx.network with hostDisconnected := true } }
      ctx.state true now with state := ctx.state } : Ctx) = X at hconn2 ⊢
  have hsess : ∀ c : Ctx, c.network.connected = true →
      (resetGameState c).network.sessionId = "" := by
    intro c h
    unfold resetGameState networkShutdown
    rw [if_pos h]
  have hrole : ∀ c : Ctx, c.network.connected = true →
      (resetGameState c).network.isHost = false := by
    intro c h
    unfold resetGameState networkShutdown
    rw [if_pos h]
  have hmy : ∀ c : Ctx, (resetGameState c).myIndex = -1 := by
    intro c
    unfold resetGameState networkShutdown
    split <;> rfl
  have hall : ∀ c : Ctx, ((resetGameState c).slots.all fun s => s.active == false) = true := by
    intro c
    have hs : (resetGameState c).slots =
        c.slots.map fun s => { s with active := false, snake := none } := by
      unfold resetGameState networkShutdown
      split <;> rfl
    rw [hs]
    exact all_inactive_after_map _
  exact ⟨rfl, rfl, hsess X hconn2, hrole X hconn2, hmy X, hall X⟩

/-- A non-host client context whose slot 0 holds the host H. -/
def ctxHostAtSlot0 : Ctx :=
  { ctxBase with slots := [activeSlot "H" tieSnakeB, emptySlot, emptySlot, emptySlot] }

/-- C6 witness: the amended host-disconnect theorem applied to a concrete
client context with the host in slot 0. -/
theorem host_disconnect_slot0_witness :
    (onEventLeaved ctxHostAtSlot0 ("H")).1.type = NetworkMessageType.HOST_DISCONNECT ∧
    (handleHostDisconnect (onEventLeaved ctxHostAtSlot0 ("H")).2 0 rngZero).state =
      GState.MENU ∧
    (handleHostDisconnect
      (onEventLeaved ctxHostAtSlot0 ("H")).2 0 rngZero).network.sessionId = "" ∧
    (handleHostDisconnect
      (onEventLeaved ctxHostAtSlot0 ("H")).2 0 rngZero).network.isHost = false ∧
    (handleHostDisconnect (onEventLeaved ctxHostAtSlot0 ("H")).2 0 rngZero).myIndex = -1 ∧
    ((handleHostDisconnect (onEventLeaved ctxHostAtSlot0 ("H")).2 0 rngZero).slots.all
      fun s => s.active == false) = true :=
  host_disconnect_slot0 ctxHostAtSlot0 ("H") 0 rngZero rfl rfl
    (activeSlot "H" tieSnakeB) rfl rfl rfl (by decide) (by decide)

-- ==================== C1: winner characterization ====================

/-- Spec-side view of the first pass: index, body length and score of every
active snake-bearing entry of an indexed slot list, keeping only nonempty
bodies (a zero-length body can never enter the longest-snake accumulator). -/
def winnerCands (l : List (Nat × PlayerSlot)) : List (Nat × Nat × Int) :=
  l.filterMap fun q =>
    match q.2.snake with
    | some sn =>
      if q.2.active = true ∧ sn.body.length > 0 then some (q.1, sn.body.length, sn.score)
      else none
    | none => none

/-- Maximum candidate body length (0 when there is no candidate). -/
def candMaxLen (cs : List (Nat × Nat × Int)) : Nat :=
  cs.foldl (fun m c => max m c.2.1) 0

/-- The candidates tied at the maximum body length, in slot order. -/
def candTied (cs : List (Nat × Nat × Int)) : List (Nat × Nat × Int) :=
  cs.filter fun c => c.2.1 == candMaxLen cs

/-- Folding max over candidate lengths from any start. -/
theorem candMaxLen_foldl_init (cs : List (Nat × Nat × Int)) :
    ∀ a : Nat, cs.foldl (fun m c => max m c.2.1) a = max a (candMaxLen cs) := by
  induction cs with
  | nil => intro a; simp [candMaxLen]
  | cons c t ih =>
    intro a
    show t.foldl _ (max a c.2.1) = max a (candMaxLen (c :: t))
    rw [ih (max a c.2.1)]
    show _ = max a ((c :: t).foldl (fun m c => max m c.2.1) 0)
    show _ = max a (t.foldl _ (max 0 c.2.1))
    rw [ih (max 0 c.2.1)]
    omega

/-- Every candidate length is bounded by the maximum. -/
theorem candMaxLen_ge (cs : List (Nat × Nat × Int)) :
    ∀ c ∈ cs, c.2.1 ≤ candMaxLen cs := by
  induction cs with
  | nil => intro c hc; simp at hc
  | cons d t ih =>
    intro c hc
    have hM : candMaxLen (d :: t) = max d.2.1 (candMaxLen t) := by
      show t.foldl _ (max 0 d.2.1) = _
      rw [candMaxLen_foldl_init]
      omega
    rcases List.mem_cons.mp hc with heq | hmem
    · subst heq; omega
    · have := ih c hmem; omega

/-- A positive maximum length is attained by some candidate. -/
theorem candMaxLen_attained (cs : List (Nat × Nat × Int)) (h : candMaxLen cs > 0) :
    ∃ c ∈ cs, c.2.1 = candMaxLen cs := by
  induction cs with
  | nil => simp [candMaxLen] at h
  | cons d t ih =>
    have hM : candMaxLen (d :: t) = max d.2.1 (candMaxLen t) := by
      show t.foldl _ (max 0 d.2.1) = _
      rw [candMaxLen_foldl_init]
      omega
    by_cases hdt : candMaxLen t ≤ d.2.1
    · refine ⟨d, List.mem_cons_self d t, ?_⟩
      omega
    · have ht : candMaxLen t > 0 := by omega
      obtain ⟨c, hc, hceq⟩ := ih ht
      refine ⟨c, List.mem_cons_of_mem d hc, ?_⟩
      omega

/-- With a positive maximum, the tied list is nonempty. -/
theorem candTied_ne_nil (cs : List (Nat × Nat × Int)) (h : candMaxLen cs > 0) :
    candTied cs ≠ [] := by
  obtain ⟨c, hc, hceq⟩ := candMaxLen_attained cs h
  intro hnil
  have : c ∈ candTied cs := by
    refine List.mem_filter.mpr ⟨hc, ?_⟩
    simp [hceq]
  rw [hnil] at this
  simp at this

/-- The first-pass accumulator over any indexed slot list equals its spec
view: the maximum candidate length, the first length-tied index (-1 when there
is none) and the list of length-tied indices in slot order. -/
theorem winPass1_fold_spec (l : List (Nat × PlayerSlot)) :
    l.foldl (fun acc q => winStep acc q.1 q.2) ⟨0, -1, []⟩ =
      ⟨candMaxLen (winnerCands l),
       (((candTied (winnerCands l)).head?).map fun c => Int.ofNat c.1).getD (-1),
       (candTied (winnerCands l)).map fun c => c.1⟩ := by
  induction l using List.reverseRecOn with
  | nil => rfl
  | append_singleton l q ih =>
    rw [List.foldl_append, ih, List.foldl_cons, List.foldl_nil]
    obtain ⟨i, s⟩ := q
    have hsplit : winnerCands (l ++ [(i, s)]) = winnerCands l ++ winnerCands [(i, s)] :=
      List.filterMap_append l [(i, s)] _
    cases hsn : s.snake with
    | none =>
      have hq : winnerCands [(i, s)] = [] := by simp [winnerCands, hsn]
      rw [hsplit, hq, List.append_nil]
      simp [winStep, hsn]
    | some sn =>
      by_cases hact : s.active = true
      · by_cases hlen : sn.body.length > 0
        · -- a real candidate
          have hq : winnerCands [(i, s)] = [(i, sn.body.length, sn.score)] := by
            simp [winnerCands, hsn, hact, hlen]
          rw [hsplit, hq]
          have hM : candMaxLen (winnerCands l ++ [(i, sn.body.length, sn.score)]) =
              max (candMaxLen (winnerCands l)) sn.body.length := by
            show (winnerCands l ++ [(i, sn.body.length, sn.score)]).foldl _ 0 = _
            rw [List.foldl_append]
            rfl
          rcases Nat.lt_trichotomy (candMaxLen (winnerCands l)) sn.body.length with
            hgt | heq | hlt
          · -- strictly longer: new sole leader
            have hmax : max (candMaxLen (winnerCands l)) sn.body.length =
                sn.body.length := by omega
            have hfilter : candTied (winnerCands l ++ [(i, sn.body.length, sn.score)]) =
                [(i, sn.body.length, sn.score)] := by
              unfold candTied
              rw [hM, hmax, List.filter_append]
              have h1 : (winnerCands l).filter
                  (fun c => c.2.1 == sn.body.length) = [] := by
                rw [List.filter_eq_nil_iff]
                intro c hc
                have := candMaxLen_ge (winnerCands l) c hc
                simp only [beq_iff_eq]
                omega
              rw [h1]
              simp
            rw [hfilter, hM, hmax]
            simp [winStep, hsn, hact, hgt]
          · -- equal length with positive max: appended to the tied list
            have hpos : candMaxLen (winnerCands l) > 0 := by omega
            have hmax : max (candMaxLen (winnerCands l)) sn.body.length =
                candMaxLen (winnerCands l) := by omega
            have hfilter : candTied (winnerCands l ++ [(i, sn.body.length, sn.score)]) =
                candTied (winnerCands l) ++ [(i, sn.body.length, sn.score)] := by
              unfold candTied
              rw [hM, hmax, List.filter_append]
              congr 1
              simp [heq]
            rw [hfilter]
            have hne := candTied_ne_nil (winnerCands l) hpos
            cases hT : candTied (winnerCands l) with
            | nil => exact absurd hT hne
            | cons t0 ts =>
              simp only [winStep, hsn, hact]
              have hngt : ¬ sn.body.length > candMaxLen (winnerCands l) := by omega
              simp [hngt, heq, hpos, hM, hmax, hT, hlen]
          · -- strictly shorter: no change
            have hmax : max (candMaxLen (winnerCands l)) sn.body.length =
                candMaxLen (winnerCands l) := by omega
            have hfilter : candTied (winnerCands l ++ [(i, sn.body.length, sn.score)]) =
                candTied (winnerCands l) := by
              unfold candTied
              rw [hM, hmax, List.filter_append]
              have h1 : ([(i, sn.body.length, sn.score)]).filter
                  (fun c => c.2.1 == candMaxLen (winnerCands l)) = [] := by
                have hneql : ¬ sn.body.length = candMaxLen (winnerCands l) := by omega
                have hbeq : (sn.body.length == candMaxLen (winnerCands l)) = false :=
                  beq_eq_false_iff_ne.mpr hneql
                simp [List.filter, hbeq]
              rw [h1, List.append_nil]
            rw [hfilter]
            have hngt : ¬ sn.body.length > candMaxLen (winnerCands l) := by omega
            have hneq : ¬ (sn.body.length = candMaxLen (winnerCands l) ∧
                candMaxLen (winnerCands l) > 0) := by omega
            simp [winStep, hsn, hact, hngt, hneq, hM, hmax]
        · -- zero-length body: not a candidate and skipped by the accumulator
          have hq : winnerCands [(i, s)] = [] := by simp [winnerCands, hsn, hact, hlen]
          rw [hsplit, hq, List.append_nil]
          have hl0 : sn.body.length = 0 := by omega
          have hngt : ¬ sn.body.length > candMaxLen (winnerCands l) := by omega
          have hneq : ¬ (sn.body.length = candMaxLen (winnerCands l) ∧
              candMaxLen (winnerCands l) > 0) := by omega
          simp [winStep, hsn, hact, hngt, hneq]
      · -- inactive slot
        have hq : winnerCands [(i, s)] = [] := by simp [winnerCands, hsn, hact]
        rw [hsplit, hq, List.append_nil]
        simp [winStep, hsn, hact]

/-- Running maximum of scores along an index list. -/
def scoreMaxFrom (f : Nat → Int) (a : Int) (t : List Nat) : Int :=
  t.foldl (fun m i => max m (f i)) a

/-- The running maximum never drops below its start. -/
theorem scoreMaxFrom_init_le (f : Nat → Int) :
    ∀ (t : List Nat) (a : Int), a ≤ scoreMaxFrom f a t := by
  intro t
  induction t with
  | nil => intro a; exact le_refl a
  | cons i t2 ih =>
    intro a
    calc a ≤ max a (f i) := le_max_left a (f i)
    _ ≤ scoreMaxFrom f (max a (f i)) t2 := ih (max a (f i))

/-- A running maximum strictly above its start is attained in the list. -/
theorem scoreMaxFrom_attained (f : Nat → Int) :
    ∀ (t : List Nat) (a : Int), scoreMaxFrom f a t > a →
      ∃ i ∈ t, f i = scoreMaxFrom f a t := by
  intro t
  induction t with
  | nil => intro a h; simp [scoreMaxFrom] at h
  | cons i t2 ih =>
    intro a h
    have hstep : scoreMaxFrom f a (i :: t2) = scoreMaxFrom f (max a (f i)) t2 := rfl
    by_cases hgt : scoreMaxFrom f (max a (f i)) t2 > max a (f i)
    · obtain ⟨j, hj, hjeq⟩ := ih (max a (f i)) hgt
      exact ⟨j, List.mem_cons_of_mem i hj, by rw [hstep]; exact hjeq⟩
    · have hle := scoreMaxFrom_init_le f t2 (max a (f i))
      have heq : scoreMaxFrom f (max a (f i)) t2 = max a (f i) := le_antisymm
        (not_lt.mp hgt) hle
      refine ⟨i, List.mem_cons_self i t2, ?_⟩
      rw [hstep, heq]
      rw [hstep, heq] at h
      rcases max_cases a (f i) with ⟨h1, _⟩ | ⟨h1, _⟩
      · omega
      · omega

/-- The score tie-break fold characterised: the final maximum is the running
maximum, and the winner is the first index attaining it when it strictly
beats the start, otherwise the incoming winner. -/
theorem winPass2_fold_spec (f : Nat → Int) :
    ∀ (t : List Nat) (m w : Int),
      t.foldl (fun acc idx => if f idx > acc.1 then (f idx, Int.ofNat idx) else acc)
        (m, w) =
      (scoreMaxFrom f m t,
       if scoreMaxFrom f m t > m then
         ((t.find? fun i => f i == scoreMaxFrom f m t).map Int.ofNat).getD w
       else w) := by
  intro t
  induction t with
  | nil =>
    intro m w
    simp [scoreMaxFrom]
  | cons i t2 ih =>
    intro m w
    have hstep : scoreMaxFrom f m (i :: t2) = scoreMaxFrom f (max m (f i)) t2 := rfl
    by_cases hi : f i > m
    · have hmaxi : max m (f i) = f i := by omega
      rw [List.foldl_cons, if_pos hi, ih (f i) (Int.ofNat i)]
      have hge : f i ≤ scoreMaxFrom f (f i) t2 := scoreMaxFrom_init_le f t2 (f i)
      have hcondL : scoreMaxFrom f m (i :: t2) > m := by
        rw [hstep, hmaxi]; omega
      rw [hstep, hmaxi, if_pos (by rw [← hmaxi] at hge ⊢; omega : scoreMaxFrom f (f i) t2 > m)]
      by_cases h2 : scoreMaxFrom f (f i) t2 > f i
      · rw [if_pos h2]
        have hne : (f i == scoreMaxFrom f (f i) t2) = false := by
          refine beq_eq_false_iff_ne.mpr ?_
          omega
        rw [List.find?_cons, hne]
        obtain ⟨j, hj, hjeq⟩ := scoreMaxFrom_attained f t2 (f i) h2
        have hsome : (t2.find? fun i2 => f i2 == scoreMaxFrom f (f i) t2).isSome := by
          apply List.find?_isSome.mpr
          exact ⟨j, hj, by simp [hjeq]⟩
        cases hfind : t2.find? fun i2 => f i2 == scoreMaxFrom f (f i) t2 with
        | none => rw [hfind] at hsome; simp at hsome
        | some j2 => simp
      · rw [if_neg h2]
        have heq2 : scoreMaxFrom f (f i) t2 = f i :=
          le_antisymm (not_lt.mp h2) hge
        have hbeq : (f i == scoreMaxFrom f (f i) t2) = true := by
          simp [heq2]
        rw [List.find?_cons, hbeq]
        simp
    · have hmaxi : max m (f i) = m := by omega
      rw [List.foldl_cons, if_neg hi, ih m w, hstep, hmaxi]
      by_cases h2 : scoreMaxFrom f m t2 > m
      · rw [if_pos h2, if_pos h2]
        have hne : (f i == scoreMaxFrom f m t2) = false := by
          refine beq_eq_false_iff_ne.mpr ?_
          omega
        rw [List.find?_cons, hne]
      · rw [if_neg h2, if_neg h2]

/-- Each candidate triple records exactly the score that the tie-break loop
reads back from its slot index. -/
theorem winnerCands_score_agree (slots : List PlayerSlot) :
    ∀ c ∈ winnerCands slots.enum, slotScore slots c.1 = c.2.2 := by
  intro c hc
  obtain ⟨q, hq, hq2⟩ := List.mem_filterMap.mp hc
  obtain ⟨i, s⟩ := q
  cases hsn : s.snake with
  | none => rw [hsn] at hq2; simp at hq2
  | some sn =>
    rw [hsn] at hq2
    have hq3 : (if s.active = true ∧ sn.body.length > 0 then
        some ((i, s).1, sn.body.length, sn.score) else none) = some c := hq2
    by_cases hcond : s.active = true ∧ sn.body.length > 0
    · rw [if_pos hcond] at hq3
      have hget : slots[i]? = some s := List.mk_mem_enum_iff_getElem?.mp hq
      obtain rfl : (i, sn.body.length, sn.score) = c := Option.some.inj hq3
      simp [slotScore, hget, hsn]
    · rw [if_neg hcond] at hq3
      simp at hq3

/-- The score fold over the tied triples equals the running maximum over their
indices, given index and score agree. -/
theorem scoreMax_map_eq (f : Nat → Int) :
    ∀ (T : List (Nat × Nat × Int)), (∀ c ∈ T, f c.1 = c.2.2) → ∀ a : Int,
      scoreMaxFrom f a (T.map fun c => c.1) = T.foldl (fun m c => max m c.2.2) a := by
  intro T
  induction T with
  | nil => intro _ a; rfl
  | cons c t ih =>
    intro hag a
    show scoreMaxFrom f (max a (f c.1)) (t.map _) = t.foldl _ (max a c.2.2)
    rw [hag c (List.mem_cons_self c t), ih fun d hd => hag d (List.mem_cons_of_mem c hd)]

/-- Searching the tied index list for a score equals searching the triples. -/
theorem find_map_eq (f : Nat → Int) (M : Int) :
    ∀ (T : List (Nat × Nat × Int)), (∀ c ∈ T, f c.1 = c.2.2) →
      ((T.map fun c => c.1).find? fun i => f i == M) =
        (T.find? fun c => c.2.2 == M).map fun c => c.1 := by
  intro T
  induction T with
  | nil => intro _; rfl
  | cons c t ih =>
    intro hag
    rw [List.map_cons, List.find?_cons, List.find?_cons,
      hag c (List.mem_cons_self c t)]
    cases hb : (c.2.2 == M) with
    | true => rfl
    | false => exact ih fun d hd => hag d (List.mem_cons_of_mem c hd)

/-- The winner rule as amended: among the active snake-bearing slots (with
nonempty bodies), take those with the longest body, in slot order; a sole
leader wins; among several length-tied actors, the lowest-indexed one with
the maximum score wins provided that maximum is at least 0 (the tie-break
loop starts from the sentinel -1), and otherwise the winner is -1; with no
candidates at all the winner is -1. -/
def specWinner (slots : List PlayerSlot) : Int :=
  let tiedC := candTied (winnerCands slots.enum)
  match tiedC with
  | [] => -1
  | [c] => Int.ofNat c.1
  | _ =>
    let maxScore := tiedC.foldl (fun m c => max m c.2.2) (-1)
    if maxScore > -1 then
      ((tiedC.find? fun c => c.2.2 == maxScore).map fun c => Int.ofNat c.1).getD (-1)
    else -1

/-- C1 (amended): the match-end winner computation refines the amended rule:
longest body first; a sole length leader wins; among length-tied actors the
lowest-indexed one with the maximum score wins when that maximum is at least
0, and otherwise (all tied scores negative, or no active snake-bearing slot
at all) the winner is -1.  In particular a full tie yields the lowest tied
index, not -1. -/
theorem computeWinner_eq_specWinner (slots : List PlayerSlot) :
    computeWinner slots = specWinner slots := by
  have hag : ∀ c ∈ candTied (winnerCands slots.enum), slotScore slots c.1 = c.2.2 :=
    fun c hc => winnerCands_score_agree slots c (List.mem_of_mem_filter hc)
  unfold computeWinner winPass1
  rw [winPass1_fold_spec]
  unfold specWinner
  rcases hTT : candTied (winnerCands slots.enum) with _ | ⟨c0, ts⟩
  · simp
  · rcases ts with _ | ⟨c1, ts2⟩
    · simp
    · rw [hTT] at hag
      simp only [List.map_cons, List.length_cons]
      rw [if_pos (by omega : (ts2.map fun c => c.1).length + 1 + 1 > 1)]
      show winPass2 slots ((c0 :: c1 :: ts2).map fun c => c.1) = _
      unfold winPass2
      rw [winPass2_fold_spec (slotScore slots)]
      rw [scoreMax_map_eq (slotScore slots) (c0 :: c1 :: ts2) hag (-1)]
      rw [find_map_eq (slotScore slots)
        ((c0 :: c1 :: ts2).foldl (fun m c => max m c.2.2) (-1)) (c0 :: c1 :: ts2) hag]
      by_cases hM : (c0 :: c1 :: ts2).foldl (fun m c => max m c.2.2) (-1) > -1
      · rw [if_pos hM, if_pos hM]
        cases hf : (c0 :: c1 :: ts2).find? fun c =>
            c.2.2 == (c0 :: c1 :: ts2).foldl (fun m c => max m c.2.2) (-1) <;> simp
      · rw [if_neg hM, if_neg hM]

/-- C1 counterexample: two active actors with bodies of length 4 and scores
10 and 10 give winner index 0 (the lowest-indexed tied actor), not the -1 the
claim requires for a persistent tie. -/
theorem winner_full_tie_counterexample :
    computeWinner slotsFullTie = 0 ∧ computeWinner slotsFullTie ≠ -1 := by
  decide

-- ==================== C2: state_sync idempotence ====================

attribute [ext] NetworkCtx MatchState Ctx

/-- The payload requests no actual game-state transition when applied to ctx:
every recognised gameState string names the current state, and a pause block,
when present, matches the current paused-ness. -/
def syncNoTransition (ctx : Ctx) (p : StateSyncPayload) : Prop :=
  (p.gameState = some "PLAYING" → ctx.state = GState.PLAYING) ∧
  (p.gameState = some "LOBBY" → ctx.state = GState.LOBBY) ∧
  (p.gameState = some "MATCH_END" → ctx.state = GState.MATCH_END) ∧
  (p.globalPaused = some true → p.pausedBy.isSome → ctx.state = GState.PAUSED) ∧
  (p.globalPaused = some false → p.pausedBy.isSome → ctx.state = GState.PLAYING)

/-- Every peer id in the payload roster already occupies an active slot. -/
def syncNoNewPlayers (ctx : Ctx) (p : StateSyncPayload) : Prop :=
  ∀ ids, p.players = some ids → ∀ pid ∈ ids, 0 ≤ find_player_by_client_id ctx.slots pid

/-- The pure-overwrite part of the pause block (what syncPause does when its
state-machine callbacks are no-ops). -/
def pauseWrite (ctx : Ctx) (p : StateSyncPayload) : Ctx :=
  match p.globalPaused, p.pausedBy with
  | some isPaused, some pauser =>
    { ctx with
      matchState :=
        { ctx.matchState with
          totalPausedTime := p.totalPausedTime.getD ctx.matchState.totalPausedTime
          pauseStartTime := p.pauseStartTime.getD ctx.matchState.pauseStartTime
          pausedByClientId := if isPaused then pauser else "" }
      slots := setActivePaused ctx.slots isPaused }
  | _, _ => ctx

@[simp] theorem syncFood_network (ctx : Ctx) (p : StateSyncPayload) :
    (syncFood ctx p).network = ctx.network := by
  unfold syncFood
  cases p.foodX <;> cases p.foodY <;> rfl

@[simp] theorem syncFood_state (ctx : Ctx) (p : StateSyncPayload) :
    (syncFood ctx p).state = ctx.state := by
  unfold syncFood
  cases p.foodX <;> cases p.foodY <;> rfl

@[simp] theorem syncFood_slots (ctx : Ctx) (p : StateSyncPayload) :
    (syncFood ctx p).slots = ctx.slots := by
  unfold syncFood
  cases p.foodX <;> cases p.foodY <;> rfl

@[simp] theorem syncFood_myIndex (ctx : Ctx) (p : StateSyncPayload) :
    (syncFood ctx p).myIndex = ctx.myIndex := by
  unfold syncFood
  cases p.foodX <;> cases p.foodY <;> rfl

@[simp] theorem syncFood_matchState (ctx : Ctx) (p : StateSyncPayload) :
    (syncFood ctx p).matchState = ctx.matchState := by
  unfold syncFood
  cases p.foodX <;> cases p.foodY <;> rfl

theorem syncFood_food (ctx : Ctx) (p : StateSyncPayload) :
    (syncFood ctx p).food =
      match p.foodX, p.foodY with
      | some fx, some fy => ⟨fx, fy⟩
      | _, _ => ctx.food := by
  unfold syncFood
  cases p.foodX <;> cases p.foodY <;> rfl

@[simp] theorem syncTiming_network (ctx : Ctx) (p : StateSyncPayload) :
    (syncTiming ctx p).network = ctx.network := by
  unfold syncTiming
  cases p.matchStartTime <;> cases p.elapsedMs <;> rfl

@[simp] theorem syncTiming_state (ctx : Ctx) (p : StateSyncPayload) :
    (syncTiming ctx p).state = ctx.state := by
  unfold syncTiming
  cases p.matchStartTime <;> cases p.elapsedMs <;> rfl

@[simp] theorem syncTiming_slots (ctx : Ctx) (p : StateSyncPayload) :
    (syncTiming ctx p).slots = ctx.slots := by
  unfold syncTiming
  cases p.matchStartTime <;> cases p.elapsedMs <;> rfl

@[simp] theorem syncTiming_myIndex (ctx : Ctx) (p : StateSyncPayload) :
    (syncTiming ctx p).myIndex = ctx.myIndex := by
  unfold syncTiming
  cases p.matchStartTime <;> cases p.elapsedMs <;> rfl

@[simp] theorem syncTiming_food (ctx : Ctx) (p : StateSyncPayload) :
    (syncTiming ctx p).food = ctx.food := by
  unfold syncTiming
  cases p.matchStartTime <;> cases p.elapsedMs <;> rfl

theorem syncTiming_matchState (ctx : Ctx) (p : StateSyncPayload) :
    (syncTiming ctx p).matchState =
      { ctx.matchState with
        matchStartTime := p.matchStartTime.getD ctx.matchState.matchStartTime
        syncedElapsedMs := p.elapsedMs.getD ctx.matchState.syncedElapsedMs } := by
  unfold syncTiming
  cases p.matchStartTime <;> cases p.elapsedMs <;> rfl

@[simp] theorem pauseWrite_network (ctx : Ctx) (p : StateSyncPayload) :
    (pauseWrite ctx p).network = ctx.network := by
  unfold pauseWrite
  cases p.globalPaused <;> cases p.pausedBy <;> rfl

@[simp] theorem pauseWrite_state (ctx : Ctx) (p : StateSyncPayload) :
    (pauseWrite ctx p).state = ctx.state := by
  unfold pauseWrite
  cases p.globalPaused <;> cases p.pausedBy <;> rfl

@[simp] theorem pauseWrite_myIndex (ctx : Ctx) (p : StateSyncPayload) :
    (pauseWrite ctx p).myIndex = ctx.myIndex := by
  unfold pauseWrite
  cases p.globalPaused <;> cases p.pausedBy <;> rfl

@[simp] theorem pauseWrite_food (ctx : Ctx) (p : StateSyncPayload) :
    (pauseWrite ctx p).food = ctx.food := by
  unfold pauseWrite
  cases p.globalPaused <;> cases p.pausedBy <;> rfl

theorem pauseWrite_slots (ctx : Ctx) (p : StateSyncPayload) :
    (pauseWrite ctx p).slots =
      match p.globalPaused, p.pausedBy with
      | some b, some _ => setActivePaused ctx.slots b
      | _, _ => ctx.slots := by
  unfold pauseWrite
  cases p.globalPaused <;> cases p.pausedBy <;> rfl

theorem pauseWrite_matchState (ctx : Ctx) (p : StateSyncPayload) :
    (pauseWrite ctx p).matchState =
      match p.globalPaused, p.pausedBy with
      | some b, some pauser =>
        { ctx.matchState with
          totalPausedTime := p.totalPausedTime.getD ctx.matchState.totalPausedTime
          pauseStartTime := p.pauseStartTime.getD ctx.matchState.pauseStartTime
          pausedByClientId := if b then pauser else "" }
      | _, _ => ctx.matchState := by
  unfold pauseWrite
  cases p.globalPaused <;> cases p.pausedBy <;> rfl

/-- The onStateChange callback is a no-op when the requested state is the
current one. -/
theorem onStateChangeCb_noop (ctx : Ctx) (tgt : GState) (now : Nat) (rng : Nat → Nat)
    (h : ctx.state = tgt) : onStateChangeCb ctx tgt now rng = ctx := by
  unfold onStateChangeCb
  simp [h]

/-- The gameState block of handleStateSync is the identity when every
recognised state string names the current state. -/
theorem syncGameState_noop (ctx : Ctx) (p : StateSyncPayload) (now : Nat) (rng : Nat → Nat)
    (h1 : p.gameState = some "PLAYING" → ctx.state = GState.PLAYING)
    (h2 : p.gameState = some "LOBBY" → ctx.state = GState.LOBBY)
    (h3 : p.gameState = some "MATCH_END" → ctx.state = GState.MATCH_END) :
    syncGameState ctx p now rng = ctx := by
  unfold syncGameState
  cases hg : p.gameState with
  | none => rfl
  | some str =>
    change (if str = "PLAYING" then onStateChangeCb ctx GState.PLAYING now rng
      else if str = "LOBBY" then onStateChangeCb ctx GState.LOBBY now rng
      else if str = "MATCH_END" then onStateChangeCb ctx GState.MATCH_END now rng
      else ctx) = ctx
    by_cases hP : str = "PLAYING"
    · subst hP
      rw [if_pos rfl]
      exact onStateChangeCb_noop ctx GState.PLAYING now rng (h1 hg)
    · rw [if_neg hP]
      by_cases hL : str = "LOBBY"
      · subst hL
        rw [if_pos rfl]
        exact onStateChangeCb_noop ctx GState.LOBBY now rng (h2 hg)
      · rw [if_neg hL]
        by_cases hE : str = "MATCH_END"
        · subst hE
          rw [if_pos rfl]
          exact onStateChangeCb_noop ctx GState.MATCH_END now rng (h3 hg)
        · rw [if_neg hE]

/-- The pause block equals its pure-overwrite form when the pause state in the
payload matches the current game state (so the callbacks are no-ops). -/
theorem syncPause_eq_pauseWrite (ctx : Ctx) (p : StateSyncPayload) (now : Nat)
    (rng : Nat → Nat)
    (h4 : p.globalPaused = some true → p.pausedBy.isSome = true → ctx.state = GState.PAUSED)
    (h5 : p.globalPaused = some false → p.pausedBy.isSome = true →
      ctx.state = GState.PLAYING) :
    syncPause ctx p now rng = pauseWrite ctx p := by
  unfold syncPause pauseWrite
  cases hg : p.globalPaused with
  | none => rfl
  | some b =>
    cases hpb : p.pausedBy with
    | none => rfl
    | some pauser =>
      cases b with
      | true =>
        have hst : ctx.state = GState.PAUSED := h4 hg (by simp [hpb])
        cases htp : p.totalPausedTime <;> cases hps : p.pauseStartTime <;>
          simp [onStateChangeCb, hst]
      | false =>
        have hst : ctx.state = GState.PLAYING := h5 hg (by simp [hpb])
        cases htp : p.totalPausedTime <;> cases hps : p.pauseStartTime <;>
          simp [onStateChangeCb, hst]

/-- One roster entry is a no-op when the id is already present. -/
theorem rosterStep_noop (ctx : Ctx) (pid : String)
    (h : 0 ≤ find_player_by_client_id ctx.slots pid) : rosterStep ctx pid = ctx := by
  unfold rosterStep
  rw [if_neg (by omega)]

/-- The whole roster fold is a no-op when every listed id is present. -/
theorem foldl_rosterStep_noop (ctx : Ctx) :
    ∀ ids : List String,
      (∀ pid ∈ ids, 0 ≤ find_player_by_client_id ctx.slots pid) →
      ids.foldl rosterStep ctx = ctx := by
  intro ids
  induction ids with
  | nil => intro _; rfl
  | cons pid rest ih =>
    intro h
    rw [List.foldl_cons, rosterStep_noop ctx pid (h pid (List.mem_cons_self pid rest))]
    exact ih fun q hq => h q (List.mem_cons_of_mem pid hq)

/-- The roster block is a no-op when every listed id is present. -/
theorem syncRoster_noop (ctx : Ctx) (p : StateSyncPayload)
    (h : syncNoNewPlayers ctx p) : syncRoster ctx p = ctx := by
  unfold syncRoster
  cases hp : p.players with
  | none => rfl
  | some ids => exact foldl_rosterStep_noop ctx ids (h ids hp)

/-- Flipping paused flags changes neither activity nor ids, so the find scan
is unaffected. -/
theorem findPlayerFrom_setActivePaused (cid : String) (b : Bool) :
    ∀ (slots : List PlayerSlot) (i : Nat),
      findPlayerFrom cid i (setActivePaused slots b) = findPlayerFrom cid i slots := by
  intro slots
  induction slots with
  | nil => intro i; rfl
  | cons s rest ih =>
    intro i
    show findPlayerFrom cid i ((if s.active then { s with paused := b } else s) ::
      setActivePaused rest b) = _
    by_cases hact : s.active
    · rw [if_pos hact]
      show (if s.active ∧ s.clientId = cid then Int.ofNat i
        else findPlayerFrom cid (i + 1) (setActivePaused rest b)) = _
      rw [ih (i + 1)]
      rfl
    · rw [if_neg hact]
      show (if s.active ∧ s.clientId = cid then Int.ofNat i
        else findPlayerFrom cid (i + 1) (setActivePaused rest b)) = _
      rw [ih (i + 1)]
      rfl

theorem find_player_setActivePaused (slots : List PlayerSlot) (b : Bool) (cid : String) :
    find_player_by_client_id (setActivePaused slots b) cid =
      find_player_by_client_id slots cid :=
  findPlayerFrom_setActivePaused cid b slots 0

/-- Setting all active paused flags twice is the same as once. -/
theorem setActivePaused_idem (slots : List PlayerSlot) (b : Bool) :
    setActivePaused (setActivePaused slots b) b = setActivePaused slots b := by
  induction slots with
  | nil => rfl
  | cons s rest ih =>
    show (if (if s.active then { s with paused := b } else s).active then _ else _) ::
      setActivePaused (setActivePaused rest b) b = _
    rw [ih]
    by_cases hact : s.active
    · simp [setActivePaused, hact]
    · simp [setActivePaused, hact]

/-- The pure overwrite a valid state_sync performs when it triggers no
transition and adds no roster entry: stamp the receive time, then food,
timing and pause fields from the payload. -/
def stateSyncNF (ctx : Ctx) (p : StateSyncPayload) (now : Nat) : Ctx :=
  pauseWrite (syncTiming (syncFood
    { ctx with network := { ctx.network with lastStateSyncReceived := now } } p) p) p

/-- Under the no-transition and no-new-player hypotheses, handleStateSync is
exactly its pure-overwrite normal form. -/
theorem handleStateSync_eq_NF (ctx : Ctx) (p : StateSyncPayload) (now : Nat)
    (rng : Nat → Nat) (h1 : syncNoTransition ctx p) (h2 : syncNoNewPlayers ctx p) :
    handleStateSync ctx p now rng = stateSyncNF ctx p now := by
  obtain ⟨h1a, h1b, h1c, h1d, h1e⟩ := h1
  unfold handleStateSync stateSyncNF
  have hst : ∀ ctx2 : Ctx, (syncTiming (syncFood ctx2 p) p).state = ctx2.state := by
    intro ctx2
    rw [syncTiming_state, syncFood_state]
  rw [syncGameState_noop _ _ _ _
    (fun h => by rw [hst]; exact h1a h)
    (fun h => by rw [hst]; exact h1b h)
    (fun h => by rw [hst]; exact h1c h)]
  rw [syncPause_eq_pauseWrite _ _ _ _
    (fun h hb => by rw [hst]; exact h1d h hb)
    (fun h hb => by rw [hst]; exact h1e h hb)]
  apply syncRoster_noop
  intro ids hp pid hpid
  have hfind := h2 ids hp pid hpid
  rw [pauseWrite_slots]
  cases hg : p.globalPaused with
  | none =>
    cases hpb : p.pausedBy <;>
      simpa [syncTiming_slots, syncFood_slots] using hfind
  | some b =>
    cases hpb : p.pausedBy with
    | none => simpa [syncTiming_slots, syncFood_slots] using hfind
    | some pauser =>
      show 0 ≤ find_player_by_client_id (setActivePaused _ b) pid
      rw [find_player_setActivePaused, syncTiming_slots, syncFood_slots]
      exact hfind

@[simp] theorem stateSyncNF_network (ctx : Ctx) (p : StateSyncPayload) (now : Nat) :
    (stateSyncNF ctx p now).network =
      { ctx.network with lastStateSyncReceived := now } := by
  unfold stateSyncNF
  rw [pauseWrite_network, syncTiming_network, syncFood_network]

@[simp] theorem stateSyncNF_state (ctx : Ctx) (p : StateSyncPayload) (now : Nat) :
    (stateSyncNF ctx p now).state = ctx.state := by
  unfold stateSyncNF
  rw [pauseWrite_state, syncTiming_state, syncFood_state]

@[simp] theorem stateSyncNF_myIndex (ctx : Ctx) (p : StateSyncPayload) (now : Nat) :
    (stateSyncNF ctx p now).myIndex = ctx.myIndex := by
  unfold stateSyncNF
  rw [pauseWrite_myIndex, syncTiming_myIndex, syncFood_myIndex]

theorem stateSyncNF_food (ctx : Ctx) (p : StateSyncPayload) (now : Nat) :
    (stateSyncNF ctx p now).food =
      match p.foodX, p.foodY with
      | some fx, some fy => ⟨fx, fy⟩
      | _, _ => ctx.food := by
  unfold stateSyncNF
  rw [pauseWrite_food, syncTiming_food, syncFood_food]

theorem stateSyncNF_slots (ctx : Ctx) (p : StateSyncPayload) (now : Nat) :
    (stateSyncNF ctx p now).slots =
      match p.globalPaused, p.pausedBy with
      | some b, some _ => setActivePaused ctx.slots b
      | _, _ => ctx.slots := by
  unfold stateSyncNF
  rw [pauseWrite_slots, syncTiming_slots, syncFood_slots]

theorem stateSyncNF_mst (ctx : Ctx) (p : StateSyncPayload) (now : Nat) :
    (stateSyncNF ctx p now).matchState.matchStartTime =
      p.matchStartTime.getD ctx.matchState.matchStartTime := by
  unfold stateSyncNF
  rw [pauseWrite_matchState]
  cases p.globalPaused <;> cases p.pausedBy <;>
    rw [syncTiming_matchState, syncFood_matchState]

theorem stateSyncNF_elapsed (ctx : Ctx) (p : StateSyncPayload) (now : Nat) :
    (stateSyncNF ctx p now).matchState.syncedElapsedMs =
      p.elapsedMs.getD ctx.matchState.syncedElapsedMs := by
  unfold stateSyncNF
  rw [pauseWrite_matchState]
  cases p.globalPaused <;> cases p.pausedBy <;>
    rw [syncTiming_matchState, syncFood_matchState]

theorem stateSyncNF_winner (ctx : Ctx) (p : StateSyncPayload) (now : Nat) :
    (stateSyncNF ctx p now).matchState.winnerIndex = ctx.matchState.winnerIndex := by
  unfold stateSyncNF
  rw [pauseWrite_matchState]
  cases p.globalPaused <;> cases p.pausedBy <;>
    rw [syncTiming_matchState, syncFood_matchState]

theorem stateSyncNF_total (ctx : Ctx) (p : StateSyncPayload) (now : Nat) :
    (stateSyncNF ctx p now).matchState.totalPausedTime =
      match p.globalPaused, p.pausedBy with
      | some _, some _ => p.totalPausedTime.getD ctx.matchState.totalPausedTime
      | _, _ => ctx.matchState.totalPausedTime := by
  unfold stateSyncNF
  rw [pauseWrite_matchState]
  cases p.globalPaused <;> cases p.pausedBy <;>
    rw [syncTiming_matchState, syncFood_matchState]

theorem stateSyncNF_pstart (ctx : Ctx) (p : StateSyncPayload) (now : Nat) :
    (stateSyncNF ctx p now).matchState.pauseStartTime =
      match p.globalPaused, p.pausedBy with
      | some _, some _ => p.pauseStartTime.getD ctx.matchState.pauseStartTime
      | _, _ => ctx.matchState.pauseStartTime := by
  unfold stateSyncNF
  rw [pauseWrite_matchState]
  cases p.globalPaused <;> cases p.pausedBy <;>
    rw [syncTiming_matchState, syncFood_matchState]

theorem stateSyncNF_pausedBy (ctx : Ctx) (p : StateSyncPayload) (now : Nat) :
    (stateSyncNF ctx p now).matchState.pausedByClientId =
      match p.globalPaused, p.pausedBy with
      | some b, some pauser => if b then pauser else ""
      | _, _ => ctx.matchState.pausedByClientId := by
  unfold stateSyncNF
  rw [pauseWrite_matchState]
  cases p.globalPaused <;> cases p.pausedBy <;>
    rw [syncTiming_matchState, syncFood_matchState]

/-- The pure-overwrite normal form is idempotent. -/
theorem stateSyncNF_idem (ctx : Ctx) (p : StateSyncPayload) (now : Nat) :
    stateSyncNF (stateSyncNF ctx p now) p now = stateSyncNF ctx p now := by
  apply Ctx.ext
  · rw [stateSyncNF_network, stateSyncNF_network]
  · apply MatchState.ext
    · rw [stateSyncNF_mst, stateSyncNF_mst]
      cases p.matchStartTime <;> rfl
    · rw [stateSyncNF_elapsed, stateSyncNF_elapsed]
      cases p.elapsedMs <;> rfl
    · rw [stateSyncNF_total, stateSyncNF_total]
      cases p.globalPaused <;> cases p.pausedBy <;> (try rfl)
      cases p.totalPausedTime <;> rfl
    · rw [stateSyncNF_pstart, stateSyncNF_pstart]
      cases p.globalPaused <;> cases p.pausedBy <;> (try rfl)
      cases p.pauseStartTime <;> rfl
    · rw [stateSyncNF_winner, stateSyncNF_winner]
    · rw [stateSyncNF_pausedBy, stateSyncNF_pausedBy]
      cases p.globalPaused <;> cases p.pausedBy <;> rfl
  · rw [stateSyncNF_slots, stateSyncNF_slots]
    cases p.globalPaused <;> cases p.pausedBy <;> (try rfl)
    exact setActivePaused_idem ctx.slots _
  · rw [stateSyncNF_myIndex, stateSyncNF_myIndex]
  · rw [stateSyncNF_food, stateSyncNF_food]
    cases p.foodX <;> cases p.foodY <;> rfl
  · rw [stateSyncNF_state, stateSyncNF_state]

/-- C2 (amended): applying a valid state_sync payload twice yields the same
match state as applying it once, provided processing it triggers no actual
game-state transition and adds no new roster entry; the resulting context is
then exactly the pure overwrite stateSyncNF, which is idempotent. -/
theorem state_sync_idempotent (ctx : Ctx) (p : StateSyncPayload) (now : Nat)
    (rng : Nat → Nat) (h1 : syncNoTransition ctx p) (h2 : syncNoNewPlayers ctx p) :
    handleStateSync (handleStateSync ctx p now rng) p now rng =
      handleStateSync ctx p now rng := by
  have h1b : syncNoTransition (stateSyncNF ctx p now) p := by
    obtain ⟨a, b, c, d, e⟩ := h1
    exact ⟨fun h => by rw [stateSyncNF_state]; exact a h,
           fun h => by rw [stateSyncNF_state]; exact b h,
           fun h => by rw [stateSyncNF_state]; exact c h,
           fun h hb => by rw [stateSyncNF_state]; exact d h hb,
           fun h hb => by rw [stateSyncNF_state]; exact e h hb⟩
  have h2b : syncNoNewPlayers (stateSyncNF ctx p now) p := by
    intro ids hp pid hpid
    rw [stateSyncNF_slots]
    cases hg : p.globalPaused with
    | none =>
      cases hpb : p.pausedBy <;> exact h2 ids hp pid hpid
    | some b =>
      cases hpb : p.pausedBy with
      | none => exact h2 ids hp pid hpid
      | some pauser =>
        show 0 ≤ find_player_by_client_id (setActivePaused ctx.slots b) pid
        rw [find_player_setActivePaused]
        exact h2 ids hp pid hpid
  rw [handleStateSync_eq_NF ctx p now rng h1 h2,
    handleStateSync_eq_NF (stateSyncNF ctx p now) p now rng h1b h2b,
    stateSyncNF_idem]

/-- An unpause broadcast in the exact shape sendGlobalPauseState produces,
carrying an explicit pauseStartTime of 5. -/
def unpausePayload : StateSyncPayload :=
  { emptyStateSync with
    globalPaused := some false
    pausedBy := some ("H")
    totalPausedTime := some 0
    pauseStartTime := some 5 }

/-- A paused two-player context: host H in slot 0, me C in slot 1. -/
def ctxPausedC2 : Ctx :=
  { ctxBase with
    state := GState.PAUSED
    slots := [activeSlot "H" tieSnakeA, activeSlot "C" tieSnakeB, emptySlot, emptySlot]
    myIndex := 1 }

/-- C2 counterexample: applying the unpause state_sync once at tick 100 folds
the payload pauseStartTime 5 into totalPausedTime (95) and zeroes
pauseStartTime via the PAUSED exit action; applying it twice ends with
totalPausedTime 0 and pauseStartTime 5, because the second application
overwrites the timing fields but triggers no transition.  The two results
differ, so the handler is not idempotent. -/
theorem state_sync_not_idempotent :
    (handleStateSync ctxPausedC2 unpausePayload 100 rngZero).matchState.totalPausedTime
      = 95 ∧
    (handleStateSync (handleStateSync ctxPausedC2 unpausePayload 100 rngZero)
      unpausePayload 100 rngZero).matchState.totalPausedTime = 0 ∧
    handleStateSync (handleStateSync ctxPausedC2 unpausePayload 100 rngZero)
        unpausePayload 100 rngZero ≠
      handleStateSync ctxPausedC2 unpausePayload 100 rngZero := by
  refine ⟨by decide, by decide, by decide⟩

/-- A state_sync carrying only a food position. -/
def foodOnlyPayload : StateSyncPayload :=
  { emptyStateSync with foodX := some 3, foodY := some 4 }

/-- C2 witness: the amended idempotence theorem applied to a concrete context
and a food-only payload. -/
theorem state_sync_idempotent_witness :
    handleStateSync (handleStateSync ctxBase foodOnlyPayload 7 rngZero)
        foodOnlyPayload 7 rngZero =
      handleStateSync ctxBase foodOnlyPayload 7 rngZero :=
  state_sync_idempotent ctxBase foodOnlyPayload 7 rngZero
    ⟨fun h => Option.noConfusion h, fun h => Option.noConfusion h,
     fun h => Option.noConfusion h, fun h _ => Option.noConfusion h,
     fun h _ => Option.noConfusion h⟩
    (fun _ hp => Option.noConfusion hp)
